import Mathlib

/-!
The metrics route of budgetdog-dashboard.

A shallow embedding of `src/types/dashboard.ts`, `src/app/api/metrics/route.ts`,
`src/app/api/metrics/route 2.ts` and the take-rate computation of
`scripts/calculate-august-take-rate.js` and `scripts/correct-take-rate.js`.

Conventions of the embedding.

* A JavaScript `number` is an exact rational (`ℚ`); `NaN` and the infinities are not
  represented.  Every division of the aggregation functions goes through an explicit
  division operator `dv`, so that the guards in front of the divisions can be stated
  and proved; `jsDiv` is the ordinary quotient.
* `undefined` / `null` is `none`.
* A `Map` and a plain object are association lists in insertion order.
* The module variable `cachedData` and the clock are explicit arguments and results.
* The built-ins `Date` and `String.prototype.toLowerCase` are parameters (`Builtins`).
* The provider is an argument: a `Listing` for `stripe.subscriptions.list`, a function
  of the customer id for `stripe.customers.retrieve`, and a function of the request for
  `stripe.events.list`.
* A loop that may not end runs on a number of iterations (`fuel`); `outOfFuel` is the
  run that has not ended within them.
-/

namespace Budgetdog

/-! ## `src/types/dashboard.ts` -/

/-- The interface `SubscriptionData`.  `status` is the string that the provider
reported: the cast `as 'active' | 'trialing' | 'canceled'` does nothing at run time. -/
structure SubscriptionData where
  subscription_id : String
  customer_id : String
  customer_email : String
  product_id : String
  status : String
  amount : ℚ
  created_at : String
deriving DecidableEq

/-- The interface `TrialConversionData`. -/
structure TrialConversionData where
  productId : String
  conversions : ℚ
  total_trials : ℚ
  conversion_rate : ℚ
deriving DecidableEq

/-- One row of `monthlyTakeRates`. -/
structure TakeRateEntry where
  month : String
  rate : ℚ
  signups : ℕ
  newMembers : ℕ
deriving DecidableEq

/-- The field `take_rate_data` of `MetricsData`. -/
structure TakeRateData where
  take_rate : ℚ
  new_bda_students : ℕ
  avery_signups : ℕ
  calculation_note : String
  monthly_history : List TakeRateEntry
deriving DecidableEq

/-- The interface `MetricsData`. -/
structure MetricsData where
  active : ℚ
  trialing : ℚ
  cancelled : ℚ
  total_mrr : ℚ
  conversion_rate : ℚ
  total_records : ℚ
  avg_ltv : ℚ
  predictive_ltv : ℚ
  take_rate_data : TakeRateData
deriving DecidableEq

/-- One value of the interface `ProductMetrics`. -/
structure ProductEntry where
  active : ℚ
  trialing : ℚ
  cancelled : ℚ
  mrr : ℚ
  conversion_rate : ℚ
  total : ℚ
  avg_ltv : ℚ
  predictive_ltv : ℚ
deriving DecidableEq

/-- The interface `ProductMetrics`: an object keyed by product name. -/
abbrev ProductMetrics := List (String × ProductEntry)

/-- The constant `BUDGETDOG_PRODUCTS`, as its entries in key order. -/
def BUDGETDOG_PRODUCTS : List (String × String) :=
  [("prod_S9H5fDgFs9Lv7y", "Millionaire Club"),
   ("prod_S8Y6cYg18JDFLG", "Budgetdog Network"),
   ("prod_RslgGi1t7MBOE6", "Budgetdog Academy")]

/-- The constant `EXCLUDED_EMAILS`. -/
def EXCLUDED_EMAILS : List String :=
  ["brian@averyapp.ai",
   "bean.smith77@gmail.com",
   "briansmith.work578@gmail.com",
   "charlie@averyapp.ai",
   "coombescharlie54@gmail.com",
   "charlie.coombes7@gmail.com"]

/-- `Object.keys(BUDGETDOG_PRODUCTS)`. -/
def productKeys : List String := BUDGETDOG_PRODUCTS.map Prod.fst

/-! ## JavaScript helpers -/

/-- The built-ins of the platform that the routes call. -/
structure Builtins where
  /-- Time value in ms of `new Date(s)`; `none` is an invalid date. -/
  dateParse : String → Option ℤ
  /-- Time value after `setHours(23, 59, 59, 999)`, in the zone of the server. -/
  setHoursEndOfDay : ℤ → ℤ
  /-- `new Date(ms).toISOString()`, at a time value in the range of `Date` (the creation
  times of the provider are Unix times in seconds, so the call does not throw). -/
  toISOString : ℤ → String
  /-- `s.toLowerCase()`. -/
  toLowerCase : String → String

/-- The quotient of two numbers. -/
def jsDiv (a b : ℚ) : ℚ := a / b

/-- Truthiness of an optional string: `undefined` and `''` are falsy. -/
def truthy : Option String → Bool
  | some s => s != ""
  | none => false

/-- `x || d` for an optional number: `undefined` and `0` give `d`. -/
def orElse (x : Option ℚ) (d : ℚ) : ℚ :=
  match x with
  | some v => if v = 0 then d else v
  | none => d

/-- `Math.round`: the nearest integer, halves rounded up. -/
def mathRound (x : ℚ) : ℚ := ((⌊x + 1 / 2⌋ : ℤ) : ℚ)

/-- `m.has(k)` for a `Map` with string keys. -/
def mapHas {β : Type} (m : List (String × β)) (k : String) : Bool :=
  m.any (fun e => e.1 == k)

/-- `m.get(k)` for a `Map` with string keys. -/
def mapGet {β : Type} (m : List (String × β)) (k : String) : Option β :=
  (m.find? (fun e => e.1 == k)).map Prod.snd

/-- `m.set(k, v)` on a `Map`, and `obj[k] = v` on a plain object: an existing key keeps
its position, a new key goes last. -/
def mapSet {β : Type} (m : List (String × β)) (k : String) (v : β) : List (String × β) :=
  if mapHas m k then m.map (fun e => if e.1 == k then (k, v) else e)
  else m ++ [(k, v)]

/-- `a >= start && a <= end` on three `Date`s; an invalid date compares false. -/
def dateBetween (start stop createdAt : Option ℤ) : Bool :=
  match createdAt, start, stop with
  | some c, some s, some e => decide (s ≤ c) && decide (c ≤ e)
  | _, _, _ => false

/-- `arr.reduce((sum, x) => sum + f(x), 0)`. -/
def reduceSum {α : Type} (f : α → ℚ) (arr : List α) : ℚ :=
  arr.foldl (fun sum x => sum + f x) 0

/-! ## `route.ts`: the aggregator -/

/-- The `customerRevenue` map after the `forEach` of the LTV computation. -/
def customerRevenue (subs : List SubscriptionData) : List (String × ℚ) :=
  subs.foldl
    (fun m sub => mapSet m sub.customer_id (orElse (mapGet m sub.customer_id) 0 + sub.amount))
    []

/-- The average over `customerRevenue`, guarded by `customerRevenue.size > 0`. -/
def avgLtvOf (dv : ℚ → ℚ → ℚ) (subs : List SubscriptionData) : ℚ :=
  let m := customerRevenue subs
  if m.length > 0 then dv (reduceSum Prod.snd m) m.length else 0

/-- The constant `FIXED_LTV` (and `FIXED_PRODUCT_LTV`, the same table). -/
def FIXED_LTV : List (String × ℚ) :=
  [("prod_S9H5fDgFs9Lv7y", 215.88),
   ("prod_S8Y6cYg18JDFLG", 299.88),
   ("prod_RslgGi1t7MBOE6", 215.88)]

/-- The constant `monthlyTakeRates`. -/
def monthlyTakeRates : List TakeRateEntry :=
  [⟨"May 2025", 36.7, 18, 49⟩,
   ⟨"June 2025", 41.4, 29, 70⟩,
   ⟨"July 2025", 36.2, 34, 94⟩]

/-- The entry `monthlyTakeRates[monthlyTakeRates.length - 1]`. -/
def currentTakeRate : TakeRateEntry := monthlyTakeRates.getLast (by decide)

/-- The object `take_rate_data` that `calculateMetrics` returns. -/
def takeRateData : TakeRateData where
  take_rate := currentTakeRate.rate
  new_bda_students := currentTakeRate.newMembers
  avery_signups := currentTakeRate.signups
  calculation_note :=
    currentTakeRate.month ++ ": " ++ toString currentTakeRate.signups ++
      " trial signups from " ++ toString currentTakeRate.newMembers ++ " new BDA students"
  monthly_history := monthlyTakeRates

/-- The date filter of `calculateMetrics`: the end date is moved to the end of its day. -/
def filterByDate (env : Builtins) (data : List SubscriptionData)
    (startDate endDate : Option String) : List SubscriptionData :=
  match startDate, endDate with
  | some s, some e =>
    if truthy (some s) && truthy (some e) then
      let start := env.dateParse s
      let stop := (env.dateParse e).map env.setHoursEndOfDay
      data.filter (fun sub => dateBetween start stop (env.dateParse sub.created_at))
    else data
  | _, _ => data

/-- The constant `historicalConversionRate` of `calculateMetrics`. -/
def historicalConversionRate (dv : ℚ → ℚ → ℚ) (trialData : List TrialConversionData) : ℚ :=
  if reduceSum TrialConversionData.total_trials trialData > 0 then
    dv (reduceSum TrialConversionData.conversions trialData)
       (reduceSum TrialConversionData.total_trials trialData) * 100
  else 0

/-- The loop over `Object.keys(BUDGETDOG_PRODUCTS)` that accumulates
`(totalWeightedLtv, totalActiveCustomers)`. -/
def weightedLtv (filteredData : List SubscriptionData) : ℚ × ℚ :=
  productKeys.foldl
    (fun acc productId =>
      let productData := filteredData.filter (fun sub => sub.product_id == productId)
      let productActive := productData.filter (fun sub => sub.status == "active")
      if productActive.length > 0 then
        let fixedLtv := (FIXED_LTV.lookup productId).getD 0
        (acc.1 + fixedLtv * productActive.length, acc.2 + productActive.length)
      else acc)
    (0, 0)

/-- The function `calculateMetrics` of `route.ts`, over the division operator `dv`. -/
def calculateMetricsWith (dv : ℚ → ℚ → ℚ) (env : Builtins) (data : List SubscriptionData)
    (trialData : List TrialConversionData) (startDate endDate : Option String)
    (conversionsInPeriod : Option ℚ) : MetricsData :=
  let ranged := truthy startDate && truthy endDate
  let filteredData := filterByDate env data startDate endDate
  let allActive := data.filter (fun sub => sub.status == "active")
  let totalMrr := reduceSum SubscriptionData.amount allActive
  let newTrials := filteredData.filter (fun sub => sub.status == "trialing")
  let newSubscriptions : ℚ :=
    orElse conversionsInPeriod (filteredData.filter (fun sub => sub.status == "active")).length
  let newCancelled := filteredData.filter (fun sub => sub.status == "canceled")
  let historical := historicalConversionRate dv trialData
  let trialConversionRate : ℚ :=
    match ranged, conversionsInPeriod with
    | true, some subscriptionsInPeriod =>
      let trialsInPeriod : ℚ := newTrials.length
      if subscriptionsInPeriod > 0 ∧ trialsInPeriod > 0 then
        dv subscriptionsInPeriod trialsInPeriod * 100
      else historical
    | _, _ => historical
  let avgLtv := avgLtvOf dv filteredData
  let w := weightedLtv filteredData
  let predictiveLtv := if w.2 > 0 then dv w.1 w.2 else 0
  { active := if ranged then newSubscriptions else allActive.length
    trialing := newTrials.length
    cancelled := newCancelled.length
    total_mrr := totalMrr
    conversion_rate := trialConversionRate
    total_records := if ranged then filteredData.length else data.length
    avg_ltv := avgLtv
    predictive_ltv := predictiveLtv
    take_rate_data := takeRateData }

/-- The function `calculateMetrics` of `route.ts`. -/
def calculateMetrics (env : Builtins) (data : List SubscriptionData)
    (trialData : List TrialConversionData) (startDate endDate : Option String)
    (conversionsInPeriod : Option ℚ) : MetricsData :=
  calculateMetricsWith jsDiv env data trialData startDate endDate conversionsInPeriod


/-- The date filter of `calculateProductMetrics`: the end date is used as parsed. -/
def filterByDateProduct (env : Builtins) (data : List SubscriptionData)
    (startDate endDate : Option String) : List SubscriptionData :=
  match startDate, endDate with
  | some s, some e =>
    if truthy (some s) && truthy (some e) then
      let start := env.dateParse s
      let stop := env.dateParse e
      data.filter (fun sub => dateBetween start stop (env.dateParse sub.created_at))
    else data
  | _, _ => data

/-- The object stored under `productMetrics[productName]` by `calculateProductMetrics`,
from the records `productData` of the product. -/
def productEntry (dv : ℚ → ℚ → ℚ) (productData : List SubscriptionData)
    (trialData : List TrialConversionData) (productId : String) : ProductEntry :=
  let active := productData.filter (fun sub => sub.status == "active")
  let trialing := productData.filter (fun sub => sub.status == "trialing")
  let cancelled := productData.filter (fun sub => sub.status == "canceled")
  let mrr := reduceSum SubscriptionData.amount active
  let conversionRate :=
    match trialData.find? (fun trial => trial.productId == productId) with
    | some trialConversionData => trialConversionData.conversion_rate
    | none => 0
  let avgLtv := avgLtvOf dv productData
  let predictiveLtv := orElse (FIXED_LTV.lookup productId) 0
  { active := active.length
    trialing := trialing.length
    cancelled := cancelled.length
    mrr := mrr
    conversion_rate := conversionRate
    total := productData.length
    avg_ltv := avgLtv
    predictive_ltv := predictiveLtv }

/-- The body of the `forEach` of `calculateProductMetrics` for one entry of
`BUDGETDOG_PRODUCTS`. -/
def productStep (dv : ℚ → ℚ → ℚ) (filteredData : List SubscriptionData)
    (trialData : List TrialConversionData) (productMetrics : ProductMetrics)
    (entry : String × String) : ProductMetrics :=
  let productId := entry.1
  let productName := entry.2
  let productData := filteredData.filter (fun sub => sub.product_id == productId)
  if productData.length = 0 then productMetrics
  else mapSet productMetrics productName (productEntry dv productData trialData productId)

/-- The function `calculateProductMetrics` of `route.ts`, over the division operator. -/
def calculateProductMetricsWith (dv : ℚ → ℚ → ℚ) (env : Builtins)
    (data : List SubscriptionData) (trialData : List TrialConversionData)
    (startDate endDate : Option String) : ProductMetrics :=
  let filteredData := filterByDateProduct env data startDate endDate
  BUDGETDOG_PRODUCTS.foldl (productStep dv filteredData trialData) []

/-- The function `calculateProductMetrics` of `route.ts`. -/
def calculateProductMetrics (env : Builtins) (data : List SubscriptionData)
    (trialData : List TrialConversionData) (startDate endDate : Option String) :
    ProductMetrics :=
  calculateProductMetricsWith jsDiv env data trialData startDate endDate

/-- The constant `realisticConversionRates` of `fetchTrialConversionData`. -/
def realisticConversionRates : List (String × ℚ) :=
  [("prod_S9H5fDgFs9Lv7y", 45),
   ("prod_S8Y6cYg18JDFLG", 42),
   ("prod_RslgGi1t7MBOE6", 38)]

/-- The function `fetchTrialConversionData` of `route.ts`, over the division operator. -/
def fetchTrialConversionDataWith (dv : ℚ → ℚ → ℚ) (subscriptionData : List SubscriptionData) :
    List TrialConversionData :=
  productKeys.map (fun productId =>
    let activeSubscriptions : ℚ :=
      (subscriptionData.filter
        (fun sub => sub.product_id == productId && sub.status == "active")).length
    let conversionRate := orElse (realisticConversionRates.lookup productId) 40
    let estimatedTrials :=
      if activeSubscriptions > 0 then mathRound (dv activeSubscriptions (dv conversionRate 100))
      else 0
    { productId := productId
      conversions := activeSubscriptions
      total_trials := estimatedTrials
      conversion_rate := conversionRate })

/-- The function `fetchTrialConversionData` of `route.ts`. -/
def fetchTrialConversionData (subscriptionData : List SubscriptionData) :
    List TrialConversionData :=
  fetchTrialConversionDataWith jsDiv subscriptionData


/-! ## `route.ts`: the fetcher and the snapshot cache -/

/-- The part of `Stripe.Price` that the route reads (`product` is an id: only
`data.items.data.price` is expanded). -/
structure Price where
  product : String
  unit_amount : Option ℚ
deriving DecidableEq

/-- The part of `Stripe.SubscriptionItem` that the route reads. -/
structure SubscriptionItem where
  price : Option Price
deriving DecidableEq

/-- The part of `Stripe.Subscription` that the route reads. -/
structure RawSubscription where
  id : String
  customer : String
  status : String
  created : ℤ
  items : List SubscriptionItem
deriving DecidableEq

/-- The part of `Stripe.Customer` that the route reads. -/
structure Customer where
  email : Option String
deriving DecidableEq

/-- One run of `stripe.subscriptions.list(...)` as seen by the `for await` loop: the
subscriptions it yields, and whether the iteration then throws instead of ending. -/
structure Listing where
  items : List RawSubscription
  fails : Bool
deriving DecidableEq

/-- The value of the module variable `cachedData` when it is not `null`. -/
structure CachedData where
  data : List SubscriptionData
  timestamp : ℤ
deriving DecidableEq

/-- The constant `CACHE_DURATION`. -/
def CACHE_DURATION : ℤ := 30 * 60 * 1000

/-- The local state of the `for await` loop of `fetchStripeData`; `lookups` records the
arguments of the calls of `stripe.customers.retrieve`, in call order. -/
structure LoopState where
  subscriptions : List SubscriptionData
  customerCache : List (String × String)
  lookups : List String
deriving DecidableEq

/-- The predicate of `subscription.items.data.find(...)`. -/
def isBudgetdogItem (item : SubscriptionItem) : Bool :=
  match item.price with
  | some price => price.product != "" && productKeys.contains price.product
  | none => false

/-- One iteration of the `for await` loop of `fetchStripeData`; `retrieve` is
`stripe.customers.retrieve`, `none` when it throws. -/
def processSubscription (env : Builtins) (retrieve : String → Option Customer)
    (st : LoopState) (subscription : RawSubscription) : LoopState :=
  match subscription.items.find? isBudgetdogItem with
  | none => st
  | some budgetdogItem =>
    match budgetdogItem.price with
    | none => st
    | some price =>
      let productId := price.product
      if productId == "" then st
      else
        let looked : String × List (String × String) × List String :=
          if !mapHas st.customerCache subscription.customer then
            match retrieve subscription.customer with
            | some customer =>
              let email := (customer.email.map env.toLowerCase).getD ""
              (email, mapSet st.customerCache subscription.customer email,
                st.lookups ++ [subscription.customer])
            | none => ("", st.customerCache, st.lookups ++ [subscription.customer])
          else ((mapGet st.customerCache subscription.customer).getD "", st.customerCache,
            st.lookups)
        let customerEmail := looked.1
        if EXCLUDED_EMAILS.contains customerEmail then
          { st with customerCache := looked.2.1, lookups := looked.2.2 }
        else
          { subscriptions := st.subscriptions ++
              [{ subscription_id := subscription.id
                 customer_id := subscription.customer
                 customer_email := customerEmail
                 product_id := productId
                 status := subscription.status
                 amount := orElse price.unit_amount 0 / 100
                 created_at := env.toISOString (subscription.created * 1000) }]
            customerCache := looked.2.1
            lookups := looked.2.2 }

/-- What one call of `fetchStripeData` does: the value it resolves to (`error msg` when
it throws `new Error(msg)`), the module variable afterwards, the number of calls of
`stripe.subscriptions.list`, and the customer lookups made. -/
structure FetchOutcome where
  result : Except String (List SubscriptionData)
  cachedData : Option CachedData
  listCalls : ℕ
  lookups : List String

/-- The part of `fetchStripeData` after the cache check. -/
def fetchFresh (env : Builtins) (retrieve : String → Option Customer) (listing : Listing)
    (cachedData : Option CachedData) (nowStore : ℤ) : FetchOutcome :=
  let st := listing.items.foldl (processSubscription env retrieve)
    { subscriptions := [], customerCache := [], lookups := [] }
  if listing.fails then
    { result := .error "Failed to fetch subscription data"
      cachedData := cachedData
      listCalls := 1
      lookups := st.lookups }
  else
    let allSubscriptions := [] ++ st.subscriptions
    { result := .ok allSubscriptions
      cachedData := some { data := allSubscriptions, timestamp := nowStore }
      listCalls := 1
      lookups := st.lookups }

/-- The function `fetchStripeData`: `now` is the reading of `Date.now()` in the cache
check, `nowStore` the reading when the cache is updated. -/
def fetchStripeData (env : Builtins) (retrieve : String → Option Customer)
    (listing : Listing) (cachedData : Option CachedData) (now nowStore : ℤ) : FetchOutcome :=
  match cachedData with
  | some held =>
    if now - held.timestamp < CACHE_DURATION then
      { result := .ok held.data, cachedData := cachedData, listCalls := 0, lookups := [] }
    else fetchFresh env retrieve listing cachedData nowStore
  | none => fetchFresh env retrieve listing cachedData nowStore

/-- The handler `DELETE`, as its effect on the module variable `cachedData`. -/
def DELETE (_cachedData : Option CachedData) : Option CachedData := none

/-! ## `route 2.ts`: the event-sourced aggregator -/

namespace Route2

/-- The function `calculateMetrics` of `route 2.ts`, over the division operator `dv`. -/
def calculateMetricsWith (dv : ℚ → ℚ → ℚ) (env : Builtins) (data : List SubscriptionData)
    (trialData : List TrialConversionData) (startDate endDate : Option String)
    (conversionsInPeriod trialsInPeriod : Option ℚ) : MetricsData :=
  let ranged := truthy startDate && truthy endDate
  let filteredData := filterByDate env data startDate endDate
  let allActive := data.filter (fun sub => sub.status == "active")
  let totalMrr := reduceSum SubscriptionData.amount allActive
  let newTrials : ℚ :=
    match trialsInPeriod with
    | some t => t
    | none => (filteredData.filter (fun sub => sub.status == "trialing")).length
  let newSubscriptions : ℚ :=
    orElse conversionsInPeriod (filteredData.filter (fun sub => sub.status == "active")).length
  let newCancelled := filteredData.filter (fun sub => sub.status == "canceled")
  let historical := historicalConversionRate dv trialData
  let trialConversionRate : ℚ :=
    match ranged, conversionsInPeriod, trialsInPeriod with
    | true, some subscriptionsInPeriod, some trialsInThisPeriod =>
      if trialsInThisPeriod > 0 then dv subscriptionsInPeriod trialsInThisPeriod * 100
      else historical
    | _, _, _ => historical
  let avgLtv := avgLtvOf dv filteredData
  let w := weightedLtv filteredData
  let predictiveLtv := if w.2 > 0 then dv w.1 w.2 else 0
  { active := if ranged then newSubscriptions else allActive.length
    trialing := newTrials
    cancelled := newCancelled.length
    total_mrr := totalMrr
    conversion_rate := trialConversionRate
    total_records := if ranged then filteredData.length else data.length
    avg_ltv := avgLtv
    predictive_ltv := predictiveLtv
    take_rate_data := takeRateData }

/-- The function `calculateMetrics` of `route 2.ts`. -/
def calculateMetrics (env : Builtins) (data : List SubscriptionData)
    (trialData : List TrialConversionData) (startDate endDate : Option String)
    (conversionsInPeriod trialsInPeriod : Option ℚ) : MetricsData :=
  calculateMetricsWith jsDiv env data trialData startDate endDate conversionsInPeriod
    trialsInPeriod

end Route2

/-! ## Values of the built-ins for the examples -/

/-- The built-ins on a server in the UTC zone, tabulated at the strings and instants
that the examples use; `toLowerCase` is the ASCII lower-casing. -/
def utcExample : Builtins where
  dateParse := fun s =>
    if s = "2025-07-01" then some 1751328000000
    else if s = "2025-07-31" then some 1753920000000
    else if s = "2025-07-15T12:00:00.000Z" then some 1752580800000
    else if s = "2025-07-31T12:00:00.000Z" then some 1753963200000
    else if s = "2025-08-15T12:00:00.000Z" then some 1755259200000
    else none
  setHoursEndOfDay := fun t => t / 86400000 * 86400000 + 86399999
  toISOString := fun t =>
    if t = 1752580800000 then "2025-07-15T12:00:00.000Z"
    else if t = 1753963200000 then "2025-07-31T12:00:00.000Z"
    else if t = 1755259200000 then "2025-08-15T12:00:00.000Z"
    else ""
  toLowerCase := fun s => String.mk (s.data.map Char.toLower)

/-- A raw subscription to the Millionaire Club, created on 2025-07-15 at noon UTC. -/
def rawClubA : RawSubscription where
  id := "sub_1"
  customer := "cus_A"
  status := "active"
  created := 1752580800
  items := [{ price := some { product := "prod_S9H5fDgFs9Lv7y", unit_amount := some 1799 } }]

/-- The record that `fetchStripeData` builds from `rawClubA` when the customer's email
is `a@example.com`. -/
def recordClubA : SubscriptionData where
  subscription_id := "sub_1"
  customer_id := "cus_A"
  customer_email := "a@example.com"
  product_id := "prod_S9H5fDgFs9Lv7y"
  status := "active"
  amount := 17.99
  created_at := "2025-07-15T12:00:00.000Z"

/-- A raw subscription of the same customer to a product that is not monitored. -/
def rawOther : RawSubscription where
  id := "sub_2"
  customer := "cus_A"
  status := "active"
  created := 1752580800
  items := [{ price := some { product := "prod_other", unit_amount := some 500 } }]

/-- A customer lookup that always succeeds with the email `A@Example.com`. -/
def lookupUpper (_customer : String) : Option Customer :=
  some { email := some "A@Example.com" }

/-! ## The fetched list as the specification words it -/

/-- A line item whose `price.product` is a key of `BUDGETDOG_PRODUCTS`. -/
def isMonitoredItem (item : SubscriptionItem) : Bool :=
  match item.price with
  | some price => productKeys.contains price.product
  | none => false

/-- The lower-cased email that the customer lookup resolves for a customer id: the empty
string when the lookup fails or the customer has no email. -/
def resolvedEmail (env : Builtins) (retrieve : String → Option Customer)
    (customer : String) : String :=
  match retrieve customer with
  | some c => (c.email.map env.toLowerCase).getD ""
  | none => ""

/-- The record expected for one raw subscription: none when no line item is monitored
or when the resolved email is excluded, otherwise the record of the first monitored
line item. -/
def expectedRecord (env : Builtins) (retrieve : String → Option Customer)
    (subscription : RawSubscription) : Option SubscriptionData :=
  match (subscription.items.find? isMonitoredItem).bind SubscriptionItem.price with
  | none => none
  | some price =>
    if resolvedEmail env retrieve subscription.customer ∈ EXCLUDED_EMAILS then none
    else
      some
        { subscription_id := subscription.id
          customer_id := subscription.customer
          customer_email := resolvedEmail env retrieve subscription.customer
          product_id := price.product
          status := subscription.status
          amount := orElse price.unit_amount 0 / 100
          created_at := env.toISOString (subscription.created * 1000) }

/-- The memo `customerCache` only holds resolved emails. -/
def CacheSound (env : Builtins) (retrieve : String → Option Customer)
    (cache : List (String × String)) : Prop :=
  ∀ k, mapHas cache k = true → mapGet cache k = some (resolvedEmail env retrieve k)

/-- Three active records of amounts 10, 20 and 30: customer A holds the first two,
customer B the third. -/
def threeActive : List SubscriptionData :=
  [{ recordClubA with subscription_id := "sub_1", customer_id := "cus_A", amount := 10 },
   { recordClubA with subscription_id := "sub_2", customer_id := "cus_A", amount := 20 },
   { recordClubA with subscription_id := "sub_3", customer_id := "cus_B", amount := 30 }]

/-- A record of an active Millionaire Club subscription created on 2025-08-15. -/
def recordAugust : SubscriptionData :=
  { recordClubA with created_at := "2025-08-15T12:00:00.000Z" }

/-- A division operator that is the quotient on strictly positive denominators and
answers 1 on every other denominator. -/
def guardedDiv (a b : ℚ) : ℚ := if 0 < b then a / b else 1

/-! ## `route.ts`: the conversions of a period -/

/-- The part of `Stripe.Event` that the route reads: `object` is `event.data.object`
and `previous_status` is `event.data.previous_attributes?.status`. -/
structure StripeEvent where
  id : String
  type : String
  object : RawSubscription
  previous_status : Option String
deriving DecidableEq

/-- The test of the first loop of `getSubscriptionConversions`: a trial that became
active on a subscription with a Budgetdog product. -/
def isTrialToActive (event : StripeEvent) : Bool :=
  event.previous_status == some "trialing" && event.object.status == "active" &&
    event.object.items.any isBudgetdogItem

/-- The test of the second loop of `getSubscriptionConversions`: a subscription with a
Budgetdog product that was created active. -/
def isDirectSubscription (event : StripeEvent) : Bool :=
  event.object.status == "active" && event.object.items.any isBudgetdogItem

/-- The function `getSubscriptionConversions` of `route.ts`.  `eventsList type gte lte`
is the run of `stripe.events.list` for that type and window, `none` when it throws; the
bounds are the parsed dates in seconds, rounded down.  The log line at the head of the
`try` calls `new Date(start * 1000).toISOString()` and the same for `end`, which throw a
`RangeError` when a date does not parse: the `catch` then returns 0 before any listing. -/
def getSubscriptionConversions (env : Builtins)
    (eventsList : String → ℤ → ℤ → Option (List StripeEvent))
    (startDate endDate : String) : ℚ :=
  match env.dateParse startDate, env.dateParse endDate with
  | some startMs, some endMs =>
    let start := startMs / 1000
    let stop := endMs / 1000
    match eventsList "customer.subscription.updated" start stop with
    | none => 0
    | some updateEvents =>
      let conversions : ℚ :=
        updateEvents.foldl
          (fun conversions event =>
            if isTrialToActive event then conversions + 1 else conversions)
          0
      match eventsList "customer.subscription.created" start stop with
      | none => 0
      | some createEvents =>
        createEvents.foldl
          (fun conversions event =>
            if isDirectSubscription event then conversions + 1 else conversions)
          conversions
  | _, _ => 0

/-- A provider whose events of the requested window are `events`: a listing answers the
events of the requested type, in order. -/
def eventsOfWindow (events : List StripeEvent) (type : String) (_gte _lte : ℤ) :
    Option (List StripeEvent) :=
  some (events.filter (fun event => event.type == type))

/-- A record of a trialing Millionaire Club subscription created on 2025-07-15. -/
def recordTrialJuly : SubscriptionData :=
  { recordClubA with subscription_id := "sub_4", customer_id := "cus_T", status := "trialing" }

/-- A record of an active Millionaire Club subscription created on 2025-07-31 at noon. -/
def recordJulyEnd : SubscriptionData :=
  { recordClubA with created_at := "2025-07-31T12:00:00.000Z" }

/-- The event of the creation of the active subscription `rawClubA`. -/
def createdActiveEvent : StripeEvent where
  id := "evt_1"
  type := "customer.subscription.created"
  object := rawClubA
  previous_status := none

/-- The event of the update that took `rawClubA` from trialing to active. -/
def trialConvertedEvent : StripeEvent where
  id := "evt_2"
  type := "customer.subscription.updated"
  object := rawClubA
  previous_status := some "trialing"

/-- A customer lookup that always fails. -/
def lookupFails (_customer : String) : Option Customer := none

/-- A record of a trialing Budgetdog Network subscription of another customer, created
on 2025-07-15. -/
def recordTrialNetwork : SubscriptionData where
  subscription_id := "sub_5"
  customer_id := "cus_N"
  customer_email := "n@example.com"
  product_id := "prod_S8Y6cYg18JDFLG"
  status := "trialing"
  amount := 24.99
  created_at := "2025-07-15T12:00:00.000Z"

/-- The raw subscription `rawClubA` with the status `past_due`. -/
def rawPastDue : RawSubscription :=
  { rawClubA with status := "past_due" }

/-- A second raw subscription of customer `cus_A` to the Millionaire Club. -/
def rawClubSecond : RawSubscription :=
  { rawClubA with id := "sub_6" }

/-! ## `route 2.ts`: the paginated listing of events -/

namespace Route2

/-- The object `listParams` of one request of `fetchAllStripeEvents`; `gte` and `lte`
are the bounds of `created`. -/
structure EventsRequest where
  type : String
  gte : ℤ
  lte : ℤ
  limit : ℕ
  starting_after : Option String
deriving DecidableEq

/-- One answer of `stripe.events.list`. -/
structure EventPage where
  data : List StripeEvent
  has_more : Bool
deriving DecidableEq

/-- What `fetchAllStripeEvents` returns, with the requests that it sent, in order. -/
structure EventsFetch where
  events : List StripeEvent
  requests : List EventsRequest
deriving DecidableEq

/-- The end of a run of the `while` loop: the iterations allowed were used up, a request
threw, or the function returned. -/
inductive Run where
  | outOfFuel
  | threw
  | returned (value : EventsFetch)
deriving DecidableEq

/-- The `while (hasMore)` loop of `fetchAllStripeEvents`, for at most `fuel` iterations.
`list n request` is the answer of the provider to `request` when `n` requests were
sent before it, `none` when it throws.  The loop is entered with `hasMore = true`. -/
def fetchAllLoop (list : ℕ → EventsRequest → Option EventPage) (eventType : String)
    (startTime endTime : ℤ) :
    ℕ → List StripeEvent → Option String → List EventsRequest → Run
  | 0, _, _, _ => .outOfFuel
  | fuel + 1, allEvents, startingAfter, requests =>
    let listParams : EventsRequest :=
      { type := eventType
        gte := startTime
        lte := endTime
        limit := 100
        starting_after := if truthy startingAfter then startingAfter else none }
    match list requests.length listParams with
    | none => .threw
    | some eventList =>
      let allEvents := allEvents ++ eventList.data
      let hasMore := eventList.has_more
      let startingAfter :=
        if hasMore && eventList.data.length > 0 then
          eventList.data.getLast?.map StripeEvent.id
        else startingAfter
      if hasMore then
        fetchAllLoop list eventType startTime endTime fuel allEvents startingAfter
          (requests ++ [listParams])
      else .returned { events := allEvents, requests := requests ++ [listParams] }

/-- The function `fetchAllStripeEvents` of `route 2.ts`, for at most `fuel` iterations
of its loop. -/
def fetchAllStripeEvents (list : ℕ → EventsRequest → Option EventPage) (eventType : String)
    (startTime endTime : ℤ) (fuel : ℕ) : Run :=
  fetchAllLoop list eventType startTime endTime fuel [] none []

/-- A provider that answers its requests with the pages of a list, one after the
other, and throws when the list is used up. -/
def scripted (pages : List EventPage) (n : ℕ) (_request : EventsRequest) : Option EventPage :=
  pages[n]?

/-- A provider whose answer depends on the request only. -/
def stateless (answer : EventsRequest → Option EventPage) (_n : ℕ)
    (request : EventsRequest) : Option EventPage :=
  answer request

/-- The request that follows a page in a script: the cursor is the id of the last event of
the page. -/
def requestAfter (eventType : String) (startTime endTime : ℤ) (page : EventPage) :
    EventsRequest :=
  { type := eventType
    gte := startTime
    lte := endTime
    limit := 100
    starting_after := page.data.getLast?.map StripeEvent.id }

end Route2

namespace Route2

/-- The request that the loop of `fetchAllStripeEvents` sends when its cursor is
`startingAfter`. -/
def requestFor (eventType : String) (startTime endTime : ℤ) (startingAfter : Option String) :
    EventsRequest :=
  { type := eventType
    gte := startTime
    lte := endTime
    limit := 100
    starting_after := if truthy startingAfter then startingAfter else none }

/-- A provider that answers every request with an empty page and `has_more = true`. -/
def emptyForever (_request : EventsRequest) : Option EventPage :=
  some { data := [], has_more := true }

/-- A page with the event `createdActiveEvent` and more to come. -/
def firstPage : EventPage := { data := [createdActiveEvent], has_more := true }

/-- A last page, with the event `trialConvertedEvent`. -/
def secondPage : EventPage := { data := [trialConvertedEvent], has_more := false }

end Route2

/-! ## `route.ts`: the handler `GET` -/

/-- The object `data` of a successful response of `GET`. -/
structure GetData where
  metrics : MetricsData
  productMetrics : ProductMetrics
  trialConversions : List TrialConversionData
  lastUpdated : String
  cached : Bool

/-- The JSON body of a response of `GET`: `success: true` with `data`, or
`success: false` with `error` and `details`. -/
inductive GetBody where
  | success (data : GetData)
  | failure (error details : String)

/-- A response of `GET`; `NextResponse.json` answers 200 unless a status is given. -/
structure GetResponse where
  status : ℕ
  body : GetBody

/-- What one call of `GET` does: its response and the module variable `cachedData`
afterwards. -/
structure GetOutcome where
  response : GetResponse
  cachedData : Option CachedData

/-- The variable `conversionsInPeriod` of `GET`: the count of the period when both search
parameters are given, `undefined` otherwise. -/
def periodConversions (env : Builtins)
    (eventsList : String → ℤ → ℤ → Option (List StripeEvent))
    (start_date end_date : Option String) : Option ℚ :=
  match start_date, end_date with
  | some s, some e =>
    if truthy (some s) && truthy (some e) then
      some (getSubscriptionConversions env eventsList s e)
    else none
  | _, _ => none

/-- The handler `GET` of `route.ts`.  `start_date` and `end_date` are the search
parameters (`none` when absent); `now` and `nowStore` are the clock readings of
`fetchStripeData`, `nowUpdated` the one of `lastUpdated` and `nowFlag` the one of the
flag `cached`. -/
def GET (env : Builtins) (retrieve : String → Option Customer) (listing : Listing)
    (eventsList : String → ℤ → ℤ → Option (List StripeEvent))
    (cachedData : Option CachedData) (now nowStore nowUpdated nowFlag : ℤ)
    (start_date end_date : Option String) : GetOutcome :=
  let fetched := fetchStripeData env retrieve listing cachedData now nowStore
  match fetched.result with
  | .error message =>
    { response :=
        { status := 500, body := .failure "Failed to fetch metrics data" message }
      cachedData := fetched.cachedData }
  | .ok data =>
    let trialData := fetchTrialConversionData data
    let conversionsInPeriod := periodConversions env eventsList start_date end_date
    let startDate := if truthy start_date then start_date else none
    let endDate := if truthy end_date then end_date else none
    let metrics := calculateMetrics env data trialData startDate endDate conversionsInPeriod
    let productMetrics := calculateProductMetrics env data trialData startDate endDate
    { response :=
        { status := 200
          body := .success
            { metrics := metrics
              productMetrics := productMetrics
              trialConversions := trialData
              lastUpdated := env.toISOString nowUpdated
              cached :=
                match fetched.cachedData with
                | some held => decide (nowFlag - held.timestamp < CACHE_DURATION)
                | none => false } }
      cachedData := fetched.cachedData }

/-- An events provider whose listings always throw. -/
def eventsFail (_type : String) (_gte _lte : ℤ) : Option (List StripeEvent) := none

/-! ## `scripts/calculate-august-take-rate.js` and `scripts/correct-take-rate.js` -/

/-- `[...new Set(xs)]`: the distinct elements of `xs`, each at its first occurrence. -/
def setToArray (xs : List String) : List String :=
  xs.foldl (fun seen x => if seen.contains x then seen else seen ++ [x]) []

/-- The object that `calculateTakeRate` returns; `takeRate` is `none` for `NaN`. -/
structure TakeRateResult where
  averyUsers : ℕ
  academySignups : ℕ
  overlap : ℕ
  takeRate : Option ℚ
  overlapEmails : List String
  academyOnly : List String
  averyOnly : List String
deriving DecidableEq

/-- The function `calculateTakeRate` of `calculate-august-take-rate.js`, with its two
module constants `averyTrialUsers` and `budgetdogAcademySignups` as arguments.
`toLowerCase` is `String.prototype.toLowerCase` and `sort` is `Array.prototype.sort`,
which sorts the array in place: the lists returned are the sorted ones.  `takeRate` is
computed before the sort; `0 / 0` is `NaN`. -/
def calculateTakeRate (toLowerCase : String → String) (sort : List String → List String)
    (averyTrialUsers budgetdogAcademySignups : List String) : TakeRateResult :=
  let averyUsers := setToArray (averyTrialUsers.map toLowerCase)
  let academySignups := setToArray (budgetdogAcademySignups.map toLowerCase)
  let overlap := academySignups.filter (fun email => averyUsers.contains email)
  let takeRate : Option ℚ :=
    if averyUsers.length = 0 then none
    else some ((overlap.length : ℚ) / (averyUsers.length : ℚ) * 100)
  let overlap := sort overlap
  let academyOnly := sort (academySignups.filter (fun email => !averyUsers.contains email))
  let averyOnly := sort (averyUsers.filter (fun email => !academySignups.contains email))
  { averyUsers := averyUsers.length
    academySignups := academySignups.length
    overlap := overlap.length
    takeRate := takeRate
    overlapEmails := overlap
    academyOnly := academyOnly
    averyOnly := averyOnly }

/-- Steps 3 and 4 of `calculateCorrectTakeRate` of `correct-take-rate.js`, from the two
de-duplicated lists: the overlap and the take rate against the Academy list (`none` for
`NaN`). -/
def correctTakeRate (academyUnique averyUnique : List String) : List String × Option ℚ :=
  let overlap := academyUnique.filter (fun email => averyUnique.contains email)
  let takeRate : Option ℚ :=
    if academyUnique.length = 0 then none
    else some ((overlap.length : ℚ) / (academyUnique.length : ℚ) * 100)
  (overlap, takeRate)

/-- ASCII lower-casing, for the examples. -/
def asciiLower (s : String) : String := String.mk (s.data.map Char.toLower)

/-- The order of the default comparison of `Array.prototype.sort` on strings of the
basic plane: lexicographic on the character codes. -/
def codeLt : List Char → List Char → Bool
  | _, [] => false
  | [], _ :: _ => true
  | a :: as, b :: bs => decide (a.toNat < b.toNat) || (a.toNat == b.toNat && codeLt as bs)

/-- A sort of strings by insertion along `codeLt`, for the examples. -/
def sortStrings (l : List String) : List String :=
  l.insertionSort (fun a b => codeLt a.data b.data = true)

/-! ## General lemmas -/

theorem foldl_add_eq_sum {α : Type} (f : α → ℚ) (l : List α) (acc : ℚ) :
    l.foldl (fun sum x => sum + f x) acc = acc + (l.map f).sum := by
  induction l generalizing acc with
  | nil => simp
  | cons x xs ih => simp [ih, add_assoc]

theorem reduceSum_eq_sum {α : Type} (f : α → ℚ) (l : List α) :
    reduceSum f l = (l.map f).sum := by
  simp [reduceSum, foldl_add_eq_sum]

theorem filterByDate_of_not_ranged (env : Builtins) (data : List SubscriptionData)
    (startDate endDate : Option String) (h : (truthy startDate && truthy endDate) = false) :
    filterByDate env data startDate endDate = data := by
  unfold filterByDate
  cases startDate <;> cases endDate <;> simp_all

theorem status_counts_le (l : List SubscriptionData) :
    (l.filter (fun sub => sub.status == "active")).length +
      (l.filter (fun sub => sub.status == "trialing")).length +
      (l.filter (fun sub => sub.status == "canceled")).length ≤ l.length := by
  induction l with
  | nil => simp
  | cons x xs ih =>
    by_cases h1 : x.status = "active"
    · simp [List.filter_cons, h1]; omega
    · by_cases h2 : x.status = "trialing"
      · simp [List.filter_cons, h2]; omega
      · by_cases h3 : x.status = "canceled"
        · simp [List.filter_cons, h3]; omega
        · simp [List.filter_cons, h1, h2, h3]; omega

/-! ## The claims -/

/-- C1: for every snapshot, trial data and choice of date range and period
conversions, `total_mrr` is the sum of `amount` over the records of the whole snapshot
whose status is `active`; so it is the same with and without a date range. -/
theorem calculateMetrics_total_mrr (env : Builtins) (data : List SubscriptionData)
    (trialData : List TrialConversionData) (startDate endDate : Option String)
    (conversionsInPeriod : Option ℚ) :
    (calculateMetrics env data trialData startDate endDate conversionsInPeriod).total_mrr
        = ((data.filter (fun sub => sub.status == "active")).map
            SubscriptionData.amount).sum
      ∧ (calculateMetrics env data trialData startDate endDate conversionsInPeriod).total_mrr
        = (calculateMetrics env data trialData none none none).total_mrr := by
  constructor
  · simp [calculateMetrics, calculateMetricsWith, reduceSum_eq_sum]
  · simp [calculateMetrics, calculateMetricsWith]

/-- C6: without a date range, `active + trialing + cancelled` is at most the number of
records of the snapshot, and `total_records` is that number. -/
theorem calculateMetrics_counts_le (env : Builtins) (data : List SubscriptionData)
    (trialData : List TrialConversionData) (conversionsInPeriod : Option ℚ) :
    (calculateMetrics env data trialData none none conversionsInPeriod).active
        + (calculateMetrics env data trialData none none conversionsInPeriod).trialing
        + (calculateMetrics env data trialData none none conversionsInPeriod).cancelled
        ≤ (data.length : ℚ)
      ∧ (calculateMetrics env data trialData none none conversionsInPeriod).total_records
        = (data.length : ℚ) := by
  have h := status_counts_le data
  constructor
  · simp only [calculateMetrics, calculateMetricsWith, truthy, filterByDate, Bool.false_and,
      Bool.false_eq_true, if_false]
    exact_mod_cast h
  · simp [calculateMetrics, calculateMetricsWith, truthy]

/-- C2: `fetchStripeData` serves the held data, without a call of the provider and
without touching the cache, exactly when a snapshot is held and `now - timestamp` is
below 1,800,000 ms; in every other case it calls the listing once and, when the listing
succeeds, returns the list built from it and stores that list with the clock reading
taken at the store (the same `now` when the clock is read once). -/
theorem fetchStripeData_cache_window (env : Builtins) (retrieve : String → Option Customer)
    (listing : Listing) (cachedData : Option CachedData) (now nowStore : ℤ) :
    (((fetchStripeData env retrieve listing cachedData now nowStore).listCalls = 0
        ∧ (fetchStripeData env retrieve listing cachedData now nowStore).cachedData = cachedData
        ∧ ∃ held, cachedData = some held
            ∧ (fetchStripeData env retrieve listing cachedData now nowStore).result
              = .ok held.data)
      ↔ ∃ held, cachedData = some held ∧ now - held.timestamp < 1800000)
    ∧ ((¬ ∃ held, cachedData = some held ∧ now - held.timestamp < 1800000) →
        (fetchStripeData env retrieve listing cachedData now nowStore).listCalls = 1
        ∧ (listing.fails = false →
            (fetchStripeData env retrieve listing cachedData now nowStore).result
              = .ok (listing.items.foldl (processSubscription env retrieve)
                  { subscriptions := [], customerCache := [], lookups := [] }).subscriptions
            ∧ (fetchStripeData env retrieve listing cachedData now nowStore).cachedData
              = some
                { data := (listing.items.foldl (processSubscription env retrieve)
                    { subscriptions := [], customerCache := [], lookups := [] }).subscriptions
                  timestamp := nowStore })) := by
  have hfresh : (fetchFresh env retrieve listing cachedData nowStore).listCalls = 1 := by
    unfold fetchFresh; split <;> rfl
  cases cachedData with
  | none =>
    refine ⟨?_, ?_⟩
    · simp [fetchStripeData, hfresh]
    · intro _
      refine ⟨by simp [fetchStripeData, hfresh], ?_⟩
      intro hf
      simp [fetchStripeData, fetchFresh, hf]
  | some held =>
    by_cases hlt : now - held.timestamp < 1800000
    · refine ⟨?_, ?_⟩
      · simp [fetchStripeData, CACHE_DURATION, hlt]
      · intro hn
        exact absurd ⟨held, rfl, hlt⟩ hn
    · refine ⟨?_, ?_⟩
      · simp [fetchStripeData, CACHE_DURATION, hlt, hfresh]
      · intro _
        refine ⟨by simp [fetchStripeData, CACHE_DURATION, hlt, hfresh], ?_⟩
        intro hf
        simp [fetchStripeData, fetchFresh, CACHE_DURATION, hlt, hf]

/-- C2, at a snapshot that is exactly 30 minutes old: the provider is called once and
the fetched list replaces the snapshot with the new clock reading. -/
theorem fetchStripeData_cache_window_witness :
    (fetchStripeData utcExample (fun _ => none) { items := [], fails := false }
        (some { data := [], timestamp := 0 }) 1800000 1800000).listCalls = 1
      ∧ (fetchStripeData utcExample (fun _ => none) { items := [], fails := false }
        (some { data := [], timestamp := 0 }) 1800000 1800000).cachedData
        = some { data := [], timestamp := 1800000 } := by
  have h := (fetchStripeData_cache_window utcExample (fun _ => none)
    { items := [], fails := false } (some { data := [], timestamp := 0 }) 1800000 1800000).2
    (by simp)
  exact ⟨h.1, (h.2 rfl).2⟩

/-- C3: `DELETE` leaves `cachedData = null` whatever was held, and the next call of
`fetchStripeData` calls the provider at every clock reading. -/
theorem DELETE_forces_refetch (cachedData : Option CachedData) (env : Builtins)
    (retrieve : String → Option Customer) (listing : Listing) (now nowStore : ℤ) :
    DELETE cachedData = none
      ∧ (fetchStripeData env retrieve listing (DELETE cachedData) now nowStore).listCalls
        = 1 := by
  refine ⟨rfl, ?_⟩
  simp only [DELETE, fetchStripeData, fetchFresh]
  split <;> rfl

/-- C4: when the listing is called (no fresh snapshot is held) and fails, after any
number of subscriptions, `fetchStripeData` throws `Failed to fetch subscription data`
and the module variable `cachedData` is what it was before the call. -/
theorem fetchStripeData_listing_failure (env : Builtins) (retrieve : String → Option Customer)
    (listing : Listing) (cachedData : Option CachedData) (now nowStore : ℤ)
    (hfail : listing.fails = true)
    (hstale : ¬ ∃ held, cachedData = some held ∧ now - held.timestamp < CACHE_DURATION) :
    (fetchStripeData env retrieve listing cachedData now nowStore).result
        = .error "Failed to fetch subscription data"
      ∧ (fetchStripeData env retrieve listing cachedData now nowStore).cachedData
        = cachedData := by
  cases cachedData with
  | none => simp [fetchStripeData, fetchFresh, hfail]
  | some held =>
    have hlt : ¬ now - held.timestamp < CACHE_DURATION := fun h => hstale ⟨held, rfl, h⟩
    simp [fetchStripeData, fetchFresh, hfail, hlt]

/-- C4, with a snapshot held since time 0, read 30 minutes later, and a listing that
fails after one subscription: the call throws and the held snapshot stays. -/
theorem fetchStripeData_listing_failure_witness :
    (fetchStripeData utcExample (fun _ => none) { items := [rawClubA], fails := true }
        (some { data := [recordClubA], timestamp := 0 }) 1800000 1800001).result
        = .error "Failed to fetch subscription data"
      ∧ (fetchStripeData utcExample (fun _ => none) { items := [rawClubA], fails := true }
        (some { data := [recordClubA], timestamp := 0 }) 1800000 1800001).cachedData
        = some { data := [recordClubA], timestamp := 0 } :=
  fetchStripeData_listing_failure utcExample (fun _ => none)
    { items := [rawClubA], fails := true } (some { data := [recordClubA], timestamp := 0 })
    1800000 1800001 rfl (by simp [CACHE_DURATION])

/-- C10: in `route 2.ts`, with a date range and both event counts supplied,
`conversion_rate` is `conversionsInPeriod / trialsInPeriod × 100` when
`trialsInPeriod > 0` and the historical rate when `trialsInPeriod = 0`; without a date
range it is always the historical rate.  The historical rate is the sum of
`conversions` over the sum of `total_trials`, times 100, when the sum of `total_trials`
is positive, and 0 otherwise. -/
theorem route2_conversion_rate (env : Builtins) (data : List SubscriptionData)
    (trialData : List TrialConversionData) (startDate endDate : Option String) :
    ((truthy startDate && truthy endDate) = true → ∀ conversions trials : ℚ,
        (0 < trials →
          (Route2.calculateMetrics env data trialData startDate endDate (some conversions)
            (some trials)).conversion_rate = conversions / trials * 100)
        ∧ (trials = 0 →
          (Route2.calculateMetrics env data trialData startDate endDate (some conversions)
            (some trials)).conversion_rate
            = if 0 < (trialData.map TrialConversionData.total_trials).sum then
                (trialData.map TrialConversionData.conversions).sum
                  / (trialData.map TrialConversionData.total_trials).sum * 100
              else 0))
    ∧ ((truthy startDate && truthy endDate) = false →
        ∀ conversionsInPeriod trialsInPeriod : Option ℚ,
          (Route2.calculateMetrics env data trialData startDate endDate conversionsInPeriod
            trialsInPeriod).conversion_rate
            = if 0 < (trialData.map TrialConversionData.total_trials).sum then
                (trialData.map TrialConversionData.conversions).sum
                  / (trialData.map TrialConversionData.total_trials).sum * 100
              else 0) := by
  refine ⟨?_, ?_⟩
  · intro hr conversions trials
    refine ⟨?_, ?_⟩
    · intro ht
      simp [Route2.calculateMetrics, Route2.calculateMetricsWith, hr, ht, jsDiv]
    · intro ht
      simp [Route2.calculateMetrics, Route2.calculateMetricsWith, hr, ht,
        historicalConversionRate, reduceSum_eq_sum, jsDiv]
  · intro hr conversionsInPeriod trialsInPeriod
    simp [Route2.calculateMetrics, Route2.calculateMetricsWith, hr,
      historicalConversionRate, reduceSum_eq_sum, jsDiv]

/-- C10, for July 2025 with 3 conversions out of 4 trial starts: the rate is 75. -/
theorem route2_conversion_rate_witness :
    (Route2.calculateMetrics utcExample [] [] (some "2025-07-01") (some "2025-07-31")
      (some 3) (some 4)).conversion_rate = 3 / 4 * 100 :=
  ((route2_conversion_rate utcExample [] [] (some "2025-07-01") (some "2025-07-31")).1
    (by decide) 3 4).1 (by norm_num)

theorem monitored_count (l : List SubscriptionData) :
    (l.filter (fun sub => productKeys.contains sub.product_id)).length
      = (l.filter (fun sub => sub.product_id == "prod_S9H5fDgFs9Lv7y")).length
        + (l.filter (fun sub => sub.product_id == "prod_S8Y6cYg18JDFLG")).length
        + (l.filter (fun sub => sub.product_id == "prod_RslgGi1t7MBOE6")).length := by
  induction l with
  | nil => simp
  | cons x xs ih =>
    by_cases h1 : x.product_id = "prod_S9H5fDgFs9Lv7y"
    · simp [List.filter_cons, h1, productKeys, BUDGETDOG_PRODUCTS] at ih ⊢; omega
    · by_cases h2 : x.product_id = "prod_S8Y6cYg18JDFLG"
      · simp [List.filter_cons, h2, productKeys, BUDGETDOG_PRODUCTS] at ih ⊢; omega
      · by_cases h3 : x.product_id = "prod_RslgGi1t7MBOE6"
        · simp [List.filter_cons, h3, productKeys, BUDGETDOG_PRODUCTS] at ih ⊢; omega
        · simp [List.filter_cons, h1, h2, h3, productKeys, BUDGETDOG_PRODUCTS] at ih ⊢
          omega

/-- C7: with or without a date range, the `total` fields of the result of
`calculateProductMetrics` add up to the number of records of its date-filtered set
whose `product_id` is a key of `BUDGETDOG_PRODUCTS`; a product without a record in that
set has no key in the result, and a product with records has its name as a key whose
`total` is the number of its records. -/
theorem calculateProductMetrics_total_sum (env : Builtins) (data : List SubscriptionData)
    (trialData : List TrialConversionData) (startDate endDate : Option String) :
    ((calculateProductMetrics env data trialData startDate endDate).map
        (fun e => e.2.total)).sum
        = (((filterByDateProduct env data startDate endDate).filter
            (fun sub => productKeys.contains sub.product_id)).length : ℚ)
      ∧ ∀ entry ∈ BUDGETDOG_PRODUCTS,
          if ((filterByDateProduct env data startDate endDate).filter
              (fun sub => sub.product_id == entry.1)).length = 0 then
            mapGet (calculateProductMetrics env data trialData startDate endDate) entry.2
              = none
          else
            ∃ e, mapGet (calculateProductMetrics env data trialData startDate endDate)
                entry.2 = some e
              ∧ e.total = (((filterByDateProduct env data startDate endDate).filter
                  (fun sub => sub.product_id == entry.1)).length : ℚ) := by
  rw [monitored_count]
  simp only [calculateProductMetrics, calculateProductMetricsWith]
  generalize filterByDateProduct env data startDate endDate = fd
  simp only [BUDGETDOG_PRODUCTS, List.foldl_cons, List.foldl_nil, productStep,
    List.forall_mem_cons, List.not_mem_nil, false_imp_iff, implies_true, and_true]
  have t1 : (productEntry jsDiv (fd.filter (fun sub => sub.product_id == "prod_S9H5fDgFs9Lv7y"))
      trialData "prod_S9H5fDgFs9Lv7y").total
      = ((fd.filter (fun sub => sub.product_id == "prod_S9H5fDgFs9Lv7y")).length : ℚ) := rfl
  have t2 : (productEntry jsDiv (fd.filter (fun sub => sub.product_id == "prod_S8Y6cYg18JDFLG"))
      trialData "prod_S8Y6cYg18JDFLG").total
      = ((fd.filter (fun sub => sub.product_id == "prod_S8Y6cYg18JDFLG")).length : ℚ) := rfl
  have t3 : (productEntry jsDiv (fd.filter (fun sub => sub.product_id == "prod_RslgGi1t7MBOE6"))
      trialData "prod_RslgGi1t7MBOE6").total
      = ((fd.filter (fun sub => sub.product_id == "prod_RslgGi1t7MBOE6")).length : ℚ) := rfl
  generalize productEntry jsDiv (fd.filter (fun sub => sub.product_id == "prod_S9H5fDgFs9Lv7y"))
      trialData "prod_S9H5fDgFs9Lv7y" = e1 at t1 ⊢
  generalize productEntry jsDiv (fd.filter (fun sub => sub.product_id == "prod_S8Y6cYg18JDFLG"))
      trialData "prod_S8Y6cYg18JDFLG" = e2 at t2 ⊢
  generalize productEntry jsDiv (fd.filter (fun sub => sub.product_id == "prod_RslgGi1t7MBOE6"))
      trialData "prod_RslgGi1t7MBOE6" = e3 at t3 ⊢
  generalize (fd.filter (fun sub => sub.product_id == "prod_S9H5fDgFs9Lv7y")).length = n1 at *
  generalize (fd.filter (fun sub => sub.product_id == "prod_S8Y6cYg18JDFLG")).length = n2 at *
  generalize (fd.filter (fun sub => sub.product_id == "prod_RslgGi1t7MBOE6")).length = n3 at *
  by_cases h1 : n1 = 0 <;> by_cases h2 : n2 = 0 <;> by_cases h3 : n3 = 0 <;>
    simp [h1, h2, h3, mapSet, mapHas, mapGet, t1, t2, t3, add_assoc]

theorem isBudgetdogItem_eq : isBudgetdogItem = isMonitoredItem := by
  funext item
  unfold isBudgetdogItem isMonitoredItem
  cases h : item.price with
  | none => rfl
  | some price =>
    by_cases hp : price.product = ""
    · simp [hp, productKeys, BUDGETDOG_PRODUCTS]
    · simp [hp]

theorem mapHas_append_single {β : Type} (m : List (String × β)) (k k2 : String) (v : β) :
    mapHas (m ++ [(k, v)]) k2 = (mapHas m k2 || k == k2) := by
  simp [mapHas]

theorem mapGet_append_single {β : Type} (m : List (String × β)) (k k2 : String) (v : β) :
    mapGet (m ++ [(k, v)]) k2
      = if mapHas m k2 then mapGet m k2 else if k == k2 then some v else none := by
  induction m with
  | nil => by_cases h : k = k2 <;> simp [mapGet, mapHas, h]
  | cons e es ih =>
    by_cases h : e.1 = k2
    · simp [mapGet, mapHas, h]
    · have hb : (e.1 == k2) = false := by simp [h]
      simp only [mapGet, mapHas, List.cons_append, List.find?_cons, List.any_cons, hb,
        Bool.false_or] at ih ⊢
      exact ih

theorem cacheSound_set (env : Builtins) (retrieve : String → Option Customer)
    (cache : List (String × String)) (k : String)
    (h : CacheSound env retrieve cache) (hk : mapHas cache k = false) :
    CacheSound env retrieve (mapSet cache k (resolvedEmail env retrieve k)) := by
  intro k2 h2
  rw [mapSet, if_neg (by simp [hk])] at h2 ⊢
  rw [mapHas_append_single] at h2
  rw [mapGet_append_single]
  by_cases hm : mapHas cache k2 = true
  · simp [hm, h k2 hm]
  · have hkk : k = k2 := by simpa [hm] using h2
    simp [hm, hkk]

theorem processSubscription_spec (env : Builtins) (retrieve : String → Option Customer)
    (st : LoopState) (sub : RawSubscription)
    (h : CacheSound env retrieve st.customerCache) :
    CacheSound env retrieve (processSubscription env retrieve st sub).customerCache
      ∧ (processSubscription env retrieve st sub).subscriptions
        = st.subscriptions ++ (expectedRecord env retrieve sub).toList := by
  unfold processSubscription expectedRecord
  rw [isBudgetdogItem_eq]
  cases hfind : sub.items.find? isMonitoredItem with
  | none => simp [h]
  | some item =>
    have hitem : isMonitoredItem item = true := List.find?_some hfind
    cases hprice : item.price with
    | none => simp [isMonitoredItem, hprice] at hitem
    | some price =>
      have hkey : productKeys.contains price.product = true := by
        simpa [isMonitoredItem, hprice] using hitem
      have hne : (price.product == "") = false := by
        by_cases hp : price.product = ""
        · rw [hp] at hkey; simp [productKeys, BUDGETDOG_PRODUCTS] at hkey
        · simp [hp]
      simp only [hprice, Option.bind_some, hne, Bool.false_eq_true, if_false]
      cases hhas : mapHas st.customerCache sub.customer with
      | true =>
        have hget := h sub.customer hhas
        by_cases hex : resolvedEmail env retrieve sub.customer ∈ EXCLUDED_EMAILS
        · simp [hget, hex, h, hprice]
        · simp [hget, hex, h, hprice]
      | false =>
        cases hret : retrieve sub.customer with
        | none =>
          have hres : resolvedEmail env retrieve sub.customer = "" := by
            simp [resolvedEmail, hret]
          by_cases hex : "" ∈ EXCLUDED_EMAILS
          · simp [hres, hex, h, hprice]
          · simp [hres, hex, h, hprice]
        | some customer =>
          have hres : (customer.email.map env.toLowerCase).getD ""
              = resolvedEmail env retrieve sub.customer := by
            simp [resolvedEmail, hret]
          have hs := cacheSound_set env retrieve st.customerCache sub.customer h hhas
          by_cases hex : resolvedEmail env retrieve sub.customer ∈ EXCLUDED_EMAILS
          · simp [hres, hex, hs, hprice]
          · simp [hres, hex, hs, hprice]

theorem processSubscription_foldl (env : Builtins) (retrieve : String → Option Customer)
    (items : List RawSubscription) (st : LoopState)
    (h : CacheSound env retrieve st.customerCache) :
    (items.foldl (processSubscription env retrieve) st).subscriptions
      = st.subscriptions ++ items.filterMap (expectedRecord env retrieve) := by
  induction items generalizing st with
  | nil => simp
  | cons x xs ih =>
    have hx := processSubscription_spec env retrieve st x h
    rw [List.foldl_cons, ih _ hx.1, hx.2]
    cases hrec : expectedRecord env retrieve x <;> simp [List.filterMap_cons, hrec]

/-- C5: when `fetchStripeData` goes to the provider and the listing succeeds, the list
it returns is, in listing order, the expected record of each raw subscription that has
one: a subscription has a record exactly when one of its line items has a monitored
`price.product` and its resolved lower-cased email is not in `EXCLUDED_EMAILS`.  So no
returned record has an excluded email, every `product_id` is a key of
`BUDGETDOG_PRODUCTS` (that of the first monitored line item), and a subscription without
a monitored line item is dropped while the call still succeeds. -/
theorem fetchStripeData_fresh_list (env : Builtins) (retrieve : String → Option Customer)
    (listing : Listing) (cachedData : Option CachedData) (now nowStore : ℤ)
    (hok : listing.fails = false)
    (hstale : ¬ ∃ held, cachedData = some held ∧ now - held.timestamp < CACHE_DURATION) :
    (fetchStripeData env retrieve listing cachedData now nowStore).result
        = .ok (listing.items.filterMap (expectedRecord env retrieve))
      ∧ (∀ sub, (expectedRecord env retrieve sub).isSome
          = (sub.items.any isMonitoredItem
              && !(EXCLUDED_EMAILS.contains (resolvedEmail env retrieve sub.customer))))
      ∧ (∀ sub r, expectedRecord env retrieve sub = some r →
          r.customer_email ∉ EXCLUDED_EMAILS ∧ r.product_id ∈ productKeys
            ∧ ∃ item price, sub.items.find? isMonitoredItem = some item
                ∧ item.price = some price ∧ r.product_id = price.product)
      ∧ (∀ r ∈ listing.items.filterMap (expectedRecord env retrieve),
          r.customer_email ∉ EXCLUDED_EMAILS ∧ r.product_id ∈ productKeys) := by
  have hchar : ∀ sub r, expectedRecord env retrieve sub = some r →
      r.customer_email ∉ EXCLUDED_EMAILS ∧ r.product_id ∈ productKeys
        ∧ ∃ item price, sub.items.find? isMonitoredItem = some item
            ∧ item.price = some price ∧ r.product_id = price.product := by
    intro sub r hr
    unfold expectedRecord at hr
    cases hfind : sub.items.find? isMonitoredItem with
    | none => simp [hfind] at hr
    | some item =>
      have hitem : isMonitoredItem item = true := List.find?_some hfind
      cases hprice : item.price with
      | none => simp [isMonitoredItem, hprice] at hitem
      | some price =>
        have hkey : price.product ∈ productKeys := by
          simpa [isMonitoredItem, hprice] using hitem
        by_cases hex : resolvedEmail env retrieve sub.customer ∈ EXCLUDED_EMAILS
        · simp [hfind, hprice, hex] at hr
        · simp [hfind, hprice, hex] at hr
          subst hr
          exact ⟨hex, hkey, item, price, rfl, hprice, rfl⟩
  refine ⟨?_, ?_, hchar, ?_⟩
  · have hfold := processSubscription_foldl env retrieve listing.items
      { subscriptions := [], customerCache := [], lookups := [] }
      (by intro k hk; simp [mapHas] at hk)
    have hfresh : (fetchFresh env retrieve listing cachedData nowStore).result
        = .ok (listing.items.filterMap (expectedRecord env retrieve)) := by
      simp [fetchFresh, hok, hfold]
    cases cachedData with
    | none => simpa [fetchStripeData] using hfresh
    | some held =>
      have hlt : ¬ now - held.timestamp < CACHE_DURATION := fun h => hstale ⟨held, rfl, h⟩
      simpa [fetchStripeData, hlt] using hfresh
  · intro sub
    unfold expectedRecord
    cases hfind : sub.items.find? isMonitoredItem with
    | none =>
      have hany : sub.items.any isMonitoredItem = false := by
        simpa [List.find?_eq_none] using hfind
      simp [hany]
    | some item =>
      have hitem : isMonitoredItem item = true := List.find?_some hfind
      have hmem : item ∈ sub.items := List.mem_of_find?_eq_some hfind
      have hany : sub.items.any isMonitoredItem = true := by
        simp only [List.any_eq_true]
        exact ⟨item, hmem, hitem⟩
      cases hprice : item.price with
      | none => simp [isMonitoredItem, hprice] at hitem
      | some price =>
        by_cases hex : resolvedEmail env retrieve sub.customer ∈ EXCLUDED_EMAILS
        · simp [hany, hex, hprice]
        · simp [hany, hex, hprice]
  · intro r hr
    obtain ⟨sub, _, hsub⟩ := List.mem_filterMap.mp hr
    exact ⟨(hchar sub r hsub).1, (hchar sub r hsub).2.1⟩

/-- C5, on a listing of a Millionaire Club subscription followed by one of an
unmonitored product, with the customer's email `A@Example.com`: the call returns the
one record of the first subscription, with the email lower-cased. -/
theorem fetchStripeData_fresh_list_witness :
    (fetchStripeData utcExample lookupUpper { items := [rawClubA, rawOther], fails := false }
        none 0 0).result = .ok [recordClubA] := by
  have h := (fetchStripeData_fresh_list utcExample lookupUpper
    { items := [rawClubA, rawOther], fails := false } none 0 0 rfl (by simp)).1
  rw [h]
  refine congrArg Except.ok ?_
  simp [expectedRecord, rawClubA, rawOther, recordClubA, lookupUpper, isMonitoredItem,
    productKeys, BUDGETDOG_PRODUCTS, resolvedEmail, utcExample, EXCLUDED_EMAILS, orElse]
  norm_num

theorem orElse_some_zero (x : ℚ) : orElse (some x) 0 = x := by
  by_cases h : x = 0 <;> simp [orElse, h]

theorem map_update_keys {β : Type} (m : List (String × β)) (k : String) (v : β) :
    (m.map (fun e => if e.1 == k then (k, v) else e)).map Prod.fst = m.map Prod.fst := by
  rw [List.map_map]
  apply List.map_congr_left
  intro e _
  by_cases h : e.1 = k <;> simp [h]

theorem map_update_of_not_has {β : Type} (m : List (String × β)) (k : String) (v : β)
    (h : mapHas m k = false) :
    m.map (fun e => if e.1 == k then (k, v) else e) = m := by
  induction m with
  | nil => rfl
  | cons e es ih =>
    simp only [mapHas, List.any_cons, Bool.or_eq_false_iff] at h
    have hes : mapHas es k = false := h.2
    simp only [List.map_cons, h.1, Bool.false_eq_true, if_false, ih hes]

theorem mapHas_iff_mem_keys {β : Type} (m : List (String × β)) (k : String) :
    mapHas m k = true ↔ k ∈ m.map Prod.fst := by
  simp only [mapHas, List.any_eq_true, List.mem_map, beq_iff_eq]

theorem sum_map_update (m : List (String × ℚ)) (k : String) (v : ℚ)
    (hnd : (m.map Prod.fst).Nodup) (hk : mapHas m k = true) :
    ((m.map (fun e => if e.1 == k then (k, v) else e)).map Prod.snd).sum
      = (m.map Prod.snd).sum - orElse (mapGet m k) 0 + v := by
  induction m with
  | nil => simp [mapHas] at hk
  | cons e es ih =>
    rw [List.map_cons, List.nodup_cons] at hnd
    by_cases h : e.1 = k
    · have hes : mapHas es k = false := by
        have hn : ¬ mapHas es k = true := by
          rw [mapHas_iff_mem_keys, ← h]; exact hnd.1
        simpa using hn
      have hget : mapGet (e :: es) k = some e.2 := by simp [mapGet, h]
      rw [hget, orElse_some_zero]
      simp only [List.map_cons, h, beq_self_eq_true, if_true, List.sum_cons]
      rw [map_update_of_not_has es k v hes]
      ring
    · have hb : (e.1 == k) = false := by simp [h]
      have hes : mapHas es k = true := by
        simpa [mapHas, hb] using hk
      have hget : mapGet (e :: es) k = mapGet es k := by
        simp only [mapGet, List.find?_cons, hb]
      rw [hget]
      simp only [List.map_cons, hb, Bool.false_eq_true, if_false, List.sum_cons]
      rw [ih hnd.2 hes]
      ring

theorem mapGet_of_not_has {β : Type} (m : List (String × β)) (k : String)
    (h : mapHas m k = false) : mapGet m k = none := by
  induction m with
  | nil => rfl
  | cons e es ih =>
    simp only [mapHas, List.any_cons, Bool.or_eq_false_iff] at h
    have hes : mapHas es k = false := h.2
    have := ih hes
    simp only [mapGet, List.find?_cons, h.1] at this ⊢
    exact this

/-- The invariant of the `customerRevenue` loop, started from any map with distinct
keys: the keys stay distinct, the values grow by the amounts, and the key set grows by
the customer ids. -/
theorem revenue_foldl (subs : List SubscriptionData) (m : List (String × ℚ))
    (hnd : (m.map Prod.fst).Nodup) :
    ((subs.foldl (fun m sub =>
        mapSet m sub.customer_id (orElse (mapGet m sub.customer_id) 0 + sub.amount)) m).map
          Prod.fst).Nodup
      ∧ ((subs.foldl (fun m sub =>
        mapSet m sub.customer_id (orElse (mapGet m sub.customer_id) 0 + sub.amount)) m).map
          Prod.snd).sum = (m.map Prod.snd).sum + (subs.map SubscriptionData.amount).sum
      ∧ ((subs.foldl (fun m sub =>
        mapSet m sub.customer_id (orElse (mapGet m sub.customer_id) 0 + sub.amount)) m).map
          Prod.fst).toFinset
        = (m.map Prod.fst).toFinset ∪ (subs.map SubscriptionData.customer_id).toFinset := by
  induction subs generalizing m with
  | nil => simp [hnd]
  | cons x xs ih =>
    rw [List.foldl_cons]
    cases hhas : mapHas m x.customer_id with
    | true =>
      have hmem : x.customer_id ∈ m.map Prod.fst := (mapHas_iff_mem_keys m _).mp hhas
      have hkeys : (mapSet m x.customer_id
          (orElse (mapGet m x.customer_id) 0 + x.amount)).map Prod.fst = m.map Prod.fst := by
        simp only [mapSet, hhas, if_true]
        exact map_update_keys m _ _
      have hsum : ((mapSet m x.customer_id
          (orElse (mapGet m x.customer_id) 0 + x.amount)).map Prod.snd).sum
          = (m.map Prod.snd).sum + x.amount := by
        simp only [mapSet, hhas, if_true]
        rw [sum_map_update m _ _ hnd hhas]
        ring
      obtain ⟨h1, h2, h3⟩ := ih _ (by rw [hkeys]; exact hnd)
      refine ⟨h1, ?_, ?_⟩
      · rw [h2, hsum]; simp [add_assoc]
      · rw [h3, hkeys]
        ext c
        simp only [Finset.mem_union, List.mem_toFinset, List.map_cons, List.mem_cons]
        constructor
        · rintro (h | h)
          · exact Or.inl h
          · exact Or.inr (Or.inr h)
        · rintro (h | h | h)
          · exact Or.inl h
          · exact Or.inl (h ▸ hmem)
          · exact Or.inr h
    | false =>
      have hnmem : x.customer_id ∉ m.map Prod.fst := by
        rw [← mapHas_iff_mem_keys]; simp [hhas]
      have hset : mapSet m x.customer_id (orElse (mapGet m x.customer_id) 0 + x.amount)
          = m ++ [(x.customer_id, x.amount)] := by
        simp [mapSet, hhas, mapGet_of_not_has m _ hhas, orElse]
      rw [hset]
      obtain ⟨h1, h2, h3⟩ := ih (m ++ [(x.customer_id, x.amount)]) (by
        rw [List.map_append, List.nodup_append]
        refine ⟨hnd, by simp, ?_⟩
        intro a ha hb
        simp only [List.map_cons, List.map_nil, List.mem_singleton] at hb
        exact hnmem (hb ▸ ha))
      refine ⟨h1, ?_, ?_⟩
      · rw [h2]; simp [add_assoc]
      · rw [h3]
        ext c
        simp only [Finset.mem_union, List.mem_toFinset, List.map_append, List.mem_append,
          List.map_cons, List.map_nil, List.mem_singleton, List.mem_cons]
        tauto

/-- The average of the LTV computation: the sum of all amounts over the number of
distinct customer ids, and 0 for the empty list. -/
theorem avgLtvOf_eq (subs : List SubscriptionData) :
    avgLtvOf jsDiv subs
      = if subs = [] then 0
        else (subs.map SubscriptionData.amount).sum
          / ((subs.map SubscriptionData.customer_id).toFinset.card : ℚ) := by
  obtain ⟨h1, h2, h3⟩ := revenue_foldl subs [] (by simp)
  have hlen : (customerRevenue subs).length
      = (subs.map SubscriptionData.customer_id).toFinset.card := by
    have hc := List.toFinset_card_of_nodup h1
    rw [h3] at hc
    simpa [customerRevenue] using hc.symm
  have hsum : reduceSum Prod.snd (customerRevenue subs)
      = (subs.map SubscriptionData.amount).sum := by
    rw [reduceSum_eq_sum]
    simpa [customerRevenue] using h2
  unfold avgLtvOf
  simp only [hlen, hsum, jsDiv]
  cases subs with
  | nil => simp
  | cons x xs =>
    have hpos : 0 < ((x :: xs).map SubscriptionData.customer_id).toFinset.card := by
      apply Finset.card_pos.mpr
      exact ⟨x.customer_id, by simp⟩
    simp [hpos]

/-- C9: for a snapshot of exactly 3 records, all `active`, of amounts 10, 20 and 30 in
any order, held by two distinct customers `a` and `b` whose amounts add up to 30 each,
`calculateMetrics` without a date range returns `total_mrr = 60` and `avg_ltv = 30`. -/
theorem calculateMetrics_three_active (env : Builtins) (data : List SubscriptionData)
    (trialData : List TrialConversionData) (conversionsInPeriod : Option ℚ) (a b : String)
    (hlen : data.length = 3)
    (hact : ∀ r ∈ data, r.status = "active")
    (hamt : (data.map SubscriptionData.amount).Perm [10, 20, 30])
    (hab : a ≠ b)
    (hcust : ∀ r ∈ data, r.customer_id = a ∨ r.customer_id = b)
    (ha : ((data.filter (fun r => r.customer_id == a)).map SubscriptionData.amount).sum = 30)
    (hb : ((data.filter (fun r => r.customer_id == b)).map SubscriptionData.amount).sum = 30) :
    (calculateMetrics env data trialData none none conversionsInPeriod).total_mrr = 60
      ∧ (calculateMetrics env data trialData none none conversionsInPeriod).avg_ltv = 30 := by
  have hsum : (data.map SubscriptionData.amount).sum = 60 := by
    rw [hamt.sum_eq]; norm_num
  have hall : data.filter (fun sub => sub.status == "active") = data := by
    rw [List.filter_eq_self]
    intro r hr
    simp [hact r hr]
  have hmemOf : ∀ c : String,
      ((data.filter (fun r => r.customer_id == c)).map SubscriptionData.amount).sum = 30 →
      c ∈ data.map SubscriptionData.customer_id := by
    intro c hc
    cases hf : data.filter (fun r => r.customer_id == c) with
    | nil => rw [hf] at hc; norm_num at hc
    | cons r rs =>
      have hr : r ∈ data.filter (fun r => r.customer_id == c) := by rw [hf]; simp
      rw [List.mem_filter] at hr
      have hrc : r.customer_id = c := by simpa using hr.2
      exact List.mem_map.mpr ⟨r, hr.1, hrc⟩
  have hset : (data.map SubscriptionData.customer_id).toFinset = {a, b} := by
    ext c
    simp only [List.mem_toFinset, Finset.mem_insert, Finset.mem_singleton]
    constructor
    · intro hc
      obtain ⟨r, hr, rfl⟩ := List.mem_map.mp hc
      exact hcust r hr
    · rintro (rfl | rfl)
      · exact hmemOf _ ha
      · exact hmemOf _ hb
  have hne : data ≠ [] := by
    intro h; rw [h] at hlen; simp at hlen
  refine ⟨?_, ?_⟩
  · simp [calculateMetrics, calculateMetricsWith, reduceSum_eq_sum, hall, hsum]
  · have hfd : filterByDate env data none none = data := rfl
    simp only [calculateMetrics, calculateMetricsWith, hfd]
    rw [avgLtvOf_eq, if_neg hne, hsum, hset, Finset.card_pair hab]
    norm_num

/-- C9, for customer A holding 10 and 20 and customer B holding 30. -/
theorem calculateMetrics_three_active_witness :
    (calculateMetrics utcExample threeActive [] none none none).total_mrr = 60
      ∧ (calculateMetrics utcExample threeActive [] none none none).avg_ltv = 30 :=
  calculateMetrics_three_active utcExample threeActive [] none "cus_A" "cus_B"
    (by decide) (by decide) (by simp [threeActive]) (by decide)
    (by decide) (by simp [threeActive]; norm_num) (by simp [threeActive])

theorem historicalConversionRate_guarded (dv : ℚ → ℚ → ℚ)
    (hdv : ∀ a b : ℚ, 0 < b → dv a b = a / b) (trialData : List TrialConversionData) :
    historicalConversionRate dv trialData = historicalConversionRate jsDiv trialData := by
  unfold historicalConversionRate
  by_cases h : reduceSum TrialConversionData.total_trials trialData > 0
  · simp only [h, if_true, jsDiv, hdv _ _ h]
  · simp only [h, if_false]

theorem avgLtvOf_guarded (dv : ℚ → ℚ → ℚ) (hdv : ∀ a b : ℚ, 0 < b → dv a b = a / b)
    (subs : List SubscriptionData) : avgLtvOf dv subs = avgLtvOf jsDiv subs := by
  unfold avgLtvOf
  by_cases h : (customerRevenue subs).length > 0
  · have hq : (0 : ℚ) < ((customerRevenue subs).length : ℚ) := by exact_mod_cast h
    simp only [h, if_true, jsDiv, hdv _ _ hq]
  · simp only [h, if_false]

theorem rate_pos (productId : String) :
    0 < orElse (realisticConversionRates.lookup productId) 40 := by
  unfold orElse
  cases h : realisticConversionRates.lookup productId with
  | none => norm_num
  | some v =>
    by_cases hv : v = 0
    · simp [hv]
    · simp only [hv, if_false]
      simp only [realisticConversionRates, List.lookup] at h
      split at h
      · simp at h; rw [← h]; norm_num
      · split at h
        · simp at h; rw [← h]; norm_num
        · split at h
          · simp at h; rw [← h]; norm_num
          · simp at h

theorem fetchTrialConversionData_guarded (dv : ℚ → ℚ → ℚ)
    (hdv : ∀ a b : ℚ, 0 < b → dv a b = a / b) (subscriptionData : List SubscriptionData) :
    fetchTrialConversionDataWith dv subscriptionData
      = fetchTrialConversionData subscriptionData := by
  unfold fetchTrialConversionData fetchTrialConversionDataWith
  apply List.map_congr_left
  intro productId _
  have h100 : dv (orElse (realisticConversionRates.lookup productId) 40) 100
      = orElse (realisticConversionRates.lookup productId) 40 / 100 :=
    hdv _ _ (by norm_num)
  have hpos : (0 : ℚ) < orElse (realisticConversionRates.lookup productId) 40 / 100 :=
    div_pos (rate_pos productId) (by norm_num)
  simp only [h100, jsDiv, hdv _ _ hpos]

theorem calculateMetrics_guarded (dv : ℚ → ℚ → ℚ) (hdv : ∀ a b : ℚ, 0 < b → dv a b = a / b)
    (env : Builtins) (data : List SubscriptionData) (trialData : List TrialConversionData)
    (startDate endDate : Option String) (conversionsInPeriod : Option ℚ) :
    calculateMetricsWith dv env data trialData startDate endDate conversionsInPeriod
      = calculateMetrics env data trialData startDate endDate conversionsInPeriod := by
  unfold calculateMetrics calculateMetricsWith
  simp only [historicalConversionRate_guarded dv hdv, avgLtvOf_guarded dv hdv]
  have hpred : (if (weightedLtv (filterByDate env data startDate endDate)).2 > 0 then
        dv (weightedLtv (filterByDate env data startDate endDate)).1
          (weightedLtv (filterByDate env data startDate endDate)).2 else 0)
      = (if (weightedLtv (filterByDate env data startDate endDate)).2 > 0 then
        jsDiv (weightedLtv (filterByDate env data startDate endDate)).1
          (weightedLtv (filterByDate env data startDate endDate)).2 else 0) := by
    by_cases h : (weightedLtv (filterByDate env data startDate endDate)).2 > 0
    · simp only [h, if_true, jsDiv, hdv _ _ h]
    · simp only [h, if_false]
  rw [hpred]
  cases hr : (truthy startDate && truthy endDate) with
  | false => rfl
  | true =>
    cases conversionsInPeriod with
    | none => rfl
    | some c =>
      by_cases h : c > 0 ∧ (((filterByDate env data startDate endDate).filter
          (fun sub => sub.status == "trialing")).length : ℚ) > 0
      · simp only [h, and_self, if_true, jsDiv, hdv _ _ h.2]
      · simp only [h, if_false]

theorem calculateProductMetrics_guarded (dv : ℚ → ℚ → ℚ)
    (hdv : ∀ a b : ℚ, 0 < b → dv a b = a / b)
    (env : Builtins) (data : List SubscriptionData) (trialData : List TrialConversionData)
    (startDate endDate : Option String) :
    calculateProductMetricsWith dv env data trialData startDate endDate
      = calculateProductMetrics env data trialData startDate endDate := by
  unfold calculateProductMetrics calculateProductMetricsWith
  have hstep : productStep dv (filterByDateProduct env data startDate endDate) trialData
      = productStep jsDiv (filterByDateProduct env data startDate endDate) trialData := by
    funext productMetrics entry
    simp only [productStep, productEntry, avgLtvOf_guarded dv hdv]
  simp only [hstep]

theorem filterByDate_nil (env : Builtins) (startDate endDate : Option String) :
    filterByDate env [] startDate endDate = [] := by
  unfold filterByDate
  cases startDate <;> cases endDate <;> simp

/-- C8 (as stated, refuted): in the period branch of `calculateMetrics` the denominator
of the division, the number of trials created in the window, is 0 and the value is the
historical rate, here 50, not 0.  The snapshot is one active Millionaire Club record
created on 2025-08-15, the window is July 2025, 3 conversions were counted in it, and
the trial data is `fetchTrialConversionData` of the snapshot. -/
theorem period_rate_falls_back_to_historical :
    ((((filterByDate utcExample [recordAugust] (some "2025-07-01") (some "2025-07-31")).filter
        (fun sub => sub.status == "trialing")).length : ℚ) = 0)
      ∧ (calculateMetrics utcExample [recordAugust] (fetchTrialConversionData [recordAugust])
          (some "2025-07-01") (some "2025-07-31") (some 3)).conversion_rate = 50
      ∧ (calculateMetrics utcExample [recordAugust] (fetchTrialConversionData [recordAugust])
          (some "2025-07-01") (some "2025-07-31") (some 3)).conversion_rate ≠ 0 := by
  have hfd : filterByDate utcExample [recordAugust] (some "2025-07-01") (some "2025-07-31")
      = [] := by
    simp [filterByDate, utcExample, recordAugust, truthy, dateBetween]
  have hround : mathRound (100 / 45) = 2 := by
    unfold mathRound
    have hfloor : ⌊(100 / 45 + 1 / 2 : ℚ)⌋ = 2 := by
      rw [Int.floor_eq_iff]; norm_num
    rw [hfloor]; norm_num
  have htrial : fetchTrialConversionData [recordAugust]
      = [⟨"prod_S9H5fDgFs9Lv7y", 1, 2, 45⟩, ⟨"prod_S8Y6cYg18JDFLG", 0, 0, 42⟩,
         ⟨"prod_RslgGi1t7MBOE6", 0, 0, 38⟩] := by
    simp [fetchTrialConversionData, fetchTrialConversionDataWith, productKeys,
      BUDGETDOG_PRODUCTS, recordAugust, recordClubA, realisticConversionRates, orElse, jsDiv,
      hround, List.lookup]
  have hrate : (calculateMetrics utcExample [recordAugust]
      (fetchTrialConversionData [recordAugust]) (some "2025-07-01") (some "2025-07-31")
      (some 3)).conversion_rate = 50 := by
    rw [htrial]
    simp only [calculateMetrics, calculateMetricsWith, hfd]
    simp [truthy, historicalConversionRate, reduceSum, jsDiv]
    norm_num
  refine ⟨by rw [hfd]; simp, hrate, ?_⟩
  rw [hrate]; norm_num

/-- C8 (amended): in `calculateMetrics`, `calculateProductMetrics` and
`fetchTrialConversionData` every division is executed only when its denominator is
strictly positive: replacing the division by any operator that agrees with the quotient
on strictly positive denominators changes none of the three results.  Where a guard
fails, the value is 0 for the historical rate, for `avg_ltv`, for `predictive_ltv` and
for the estimated trial count, while the period conversion rate is the historical rate.
On the empty snapshot, with the trial data of the empty snapshot, `conversion_rate`,
`avg_ltv`, `predictive_ltv` and `total_mrr` are 0 with or without a date range. -/
theorem divisions_guarded (dv : ℚ → ℚ → ℚ) (hdv : ∀ a b : ℚ, 0 < b → dv a b = a / b)
    (env : Builtins) (data : List SubscriptionData) (trialData : List TrialConversionData)
    (startDate endDate : Option String) (conversionsInPeriod : Option ℚ) :
    calculateMetricsWith dv env data trialData startDate endDate conversionsInPeriod
        = calculateMetrics env data trialData startDate endDate conversionsInPeriod
      ∧ calculateProductMetricsWith dv env data trialData startDate endDate
        = calculateProductMetrics env data trialData startDate endDate
      ∧ fetchTrialConversionDataWith dv data = fetchTrialConversionData data
      ∧ (reduceSum TrialConversionData.total_trials trialData ≤ 0 →
          historicalConversionRate jsDiv trialData = 0)
      ∧ ((customerRevenue (filterByDate env data startDate endDate)).length = 0 →
          (calculateMetrics env data trialData startDate endDate conversionsInPeriod).avg_ltv
            = 0)
      ∧ ((weightedLtv (filterByDate env data startDate endDate)).2 ≤ 0 →
          (calculateMetrics env data trialData startDate endDate
            conversionsInPeriod).predictive_ltv = 0)
      ∧ (∀ t ∈ fetchTrialConversionData data, t.conversions ≤ 0 → t.total_trials = 0)
      ∧ (∀ c : ℚ, (truthy startDate && truthy endDate) = true →
          ¬ (c > 0 ∧ (((filterByDate env data startDate endDate).filter
              (fun sub => sub.status == "trialing")).length : ℚ) > 0) →
          (calculateMetrics env data trialData startDate endDate (some c)).conversion_rate
            = historicalConversionRate jsDiv trialData)
      ∧ (∀ (s e : Option String) (c : Option ℚ),
          (calculateMetrics env [] (fetchTrialConversionData []) s e c).conversion_rate = 0
          ∧ (calculateMetrics env [] (fetchTrialConversionData []) s e c).avg_ltv = 0
          ∧ (calculateMetrics env [] (fetchTrialConversionData []) s e c).predictive_ltv = 0
          ∧ (calculateMetrics env [] (fetchTrialConversionData []) s e c).total_mrr = 0) := by
  refine ⟨calculateMetrics_guarded dv hdv env data trialData startDate endDate
      conversionsInPeriod,
    calculateProductMetrics_guarded dv hdv env data trialData startDate endDate,
    fetchTrialConversionData_guarded dv hdv data, ?_, ?_, ?_, ?_, ?_, ?_⟩
  · intro h
    simp [historicalConversionRate, not_lt.mpr h]
  · intro h
    simp [calculateMetrics, calculateMetricsWith, avgLtvOf, h]
  · intro h
    simp [calculateMetrics, calculateMetricsWith, not_lt.mpr h]
  · intro t ht hc
    simp only [fetchTrialConversionData, fetchTrialConversionDataWith, List.mem_map] at ht
    obtain ⟨productId, _, rfl⟩ := ht
    simp only at hc ⊢
    simp [not_lt.mpr hc]
  · intro c hr hn
    simp only [calculateMetrics, calculateMetricsWith, hr]
    simp only [hn, if_false]
  · intro s e c
    have htrial : historicalConversionRate jsDiv (fetchTrialConversionData []) = 0 := by
      simp [historicalConversionRate, fetchTrialConversionData, fetchTrialConversionDataWith,
        productKeys, BUDGETDOG_PRODUCTS, reduceSum]
    have hw : weightedLtv [] = (0, 0) := by
      simp [weightedLtv, productKeys, BUDGETDOG_PRODUCTS]
    refine ⟨?_, ?_, ?_, ?_⟩
    · simp only [calculateMetrics, calculateMetricsWith, filterByDate_nil, htrial]
      cases (truthy s && truthy e) <;> cases c <;> simp
    · simp [calculateMetrics, calculateMetricsWith, filterByDate_nil, avgLtvOf,
        customerRevenue]
    · simp [calculateMetrics, calculateMetricsWith, filterByDate_nil, hw]
    · simp [calculateMetrics, calculateMetricsWith, reduceSum]

/-- C8 (amended), with a division operator that answers 1 on a denominator that is not
strictly positive: the metrics of the three active records are unchanged. -/
theorem divisions_guarded_witness :
    calculateMetricsWith guardedDiv utcExample threeActive [] none none none
      = calculateMetrics utcExample threeActive [] none none none :=
  (divisions_guarded guardedDiv (fun a b hb => by simp [guardedDiv, hb]) utcExample
    threeActive [] none none none).1

/-- C11 (as stated, refuted): in `route.ts`, with a date range, `conversionsInPeriod = 0`
and one trial created in the window, `conversion_rate` is the historical rate 50 and
not `0 / 1 × 100`.  The snapshot is an active Millionaire Club record created on
2025-08-15 and a trialing one created on 2025-07-15, the window is July 2025, and the
trial data is `fetchTrialConversionData` of the snapshot. -/
theorem period_rate_needs_positive_conversions :
    ((((filterByDate utcExample [recordAugust, recordTrialJuly] (some "2025-07-01")
        (some "2025-07-31")).filter (fun sub => sub.status == "trialing")).length : ℚ) = 1)
      ∧ (calculateMetrics utcExample [recordAugust, recordTrialJuly]
          (fetchTrialConversionData [recordAugust, recordTrialJuly])
          (some "2025-07-01") (some "2025-07-31") (some 0)).conversion_rate = 50
      ∧ (calculateMetrics utcExample [recordAugust, recordTrialJuly]
          (fetchTrialConversionData [recordAugust, recordTrialJuly])
          (some "2025-07-01") (some "2025-07-31") (some 0)).conversion_rate
        ≠ 0 / 1 * 100 := by
  have hfd : filterByDate utcExample [recordAugust, recordTrialJuly] (some "2025-07-01")
      (some "2025-07-31") = [recordTrialJuly] := by
    simp [filterByDate, utcExample, recordAugust, recordTrialJuly, recordClubA, truthy,
      dateBetween]
  have hround : mathRound (100 / 45) = 2 := by
    unfold mathRound
    have hfloor : ⌊(100 / 45 + 1 / 2 : ℚ)⌋ = 2 := by
      rw [Int.floor_eq_iff]; norm_num
    rw [hfloor]; norm_num
  have htrial : fetchTrialConversionData [recordAugust, recordTrialJuly]
      = [⟨"prod_S9H5fDgFs9Lv7y", 1, 2, 45⟩, ⟨"prod_S8Y6cYg18JDFLG", 0, 0, 42⟩,
         ⟨"prod_RslgGi1t7MBOE6", 0, 0, 38⟩] := by
    simp [fetchTrialConversionData, fetchTrialConversionDataWith, productKeys,
      BUDGETDOG_PRODUCTS, recordAugust, recordTrialJuly, recordClubA,
      realisticConversionRates, orElse, jsDiv, hround, List.lookup]
  have hrate : (calculateMetrics utcExample [recordAugust, recordTrialJuly]
      (fetchTrialConversionData [recordAugust, recordTrialJuly]) (some "2025-07-01")
      (some "2025-07-31") (some 0)).conversion_rate = 50 := by
    rw [htrial]
    simp only [calculateMetrics, calculateMetricsWith, hfd]
    simp [truthy, historicalConversionRate, reduceSum, jsDiv]
    norm_num
  refine ⟨by rw [hfd]; simp [recordTrialJuly], hrate, ?_⟩
  rw [hrate]; norm_num

/-- C11 (amended): in `route.ts`, with a date range and `conversionsInPeriod` supplied,
`conversion_rate` is `conversionsInPeriod / trials × 100` when `conversionsInPeriod > 0`
and the number `trials` of trialing records of the date-filtered set is positive; in
every other case, no trial in the window or no positive `conversionsInPeriod`, it is
the historical rate. -/
theorem period_rate_route (env : Builtins) (data : List SubscriptionData)
    (trialData : List TrialConversionData) (startDate endDate : Option String)
    (conversions : ℚ) (hr : (truthy startDate && truthy endDate) = true) :
    (0 < conversions →
        0 < ((filterByDate env data startDate endDate).filter
          (fun sub => sub.status == "trialing")).length →
        (calculateMetrics env data trialData startDate endDate
          (some conversions)).conversion_rate
          = conversions / (((filterByDate env data startDate endDate).filter
              (fun sub => sub.status == "trialing")).length : ℚ) * 100)
      ∧ (¬ (0 < conversions
            ∧ 0 < ((filterByDate env data startDate endDate).filter
                (fun sub => sub.status == "trialing")).length) →
        (calculateMetrics env data trialData startDate endDate
          (some conversions)).conversion_rate
          = if 0 < (trialData.map TrialConversionData.total_trials).sum then
              (trialData.map TrialConversionData.conversions).sum
                / (trialData.map TrialConversionData.total_trials).sum * 100
            else 0) := by
  refine ⟨?_, ?_⟩
  · intro hc ht
    have htq : (0 : ℚ) < (((filterByDate env data startDate endDate).filter
        (fun sub => sub.status == "trialing")).length : ℚ) := by exact_mod_cast ht
    simp only [calculateMetrics, calculateMetricsWith, hr]
    simp only [gt_iff_lt, hc, htq, and_self, if_true, jsDiv]
  · intro hn
    have hnq : ¬ (conversions > 0 ∧ (((filterByDate env data startDate endDate).filter
        (fun sub => sub.status == "trialing")).length : ℚ) > 0) := by
      intro h
      exact hn ⟨h.1, by exact_mod_cast h.2⟩
    simp only [calculateMetrics, calculateMetricsWith, hr]
    simp only [hnq, if_false, historicalConversionRate, reduceSum_eq_sum, jsDiv, gt_iff_lt]

/-- C11 (amended), for July 2025 with 3 conversions and one trial created in the
window: the rate is 300. -/
theorem period_rate_route_witness :
    (calculateMetrics utcExample [recordAugust, recordTrialJuly] []
      (some "2025-07-01") (some "2025-07-31") (some 3)).conversion_rate
      = 3 / (((filterByDate utcExample [recordAugust, recordTrialJuly] (some "2025-07-01")
          (some "2025-07-31")).filter (fun sub => sub.status == "trialing")).length : ℚ)
        * 100 :=
  (period_rate_route utcExample [recordAugust, recordTrialJuly] []
    (some "2025-07-01") (some "2025-07-31") 3 (by decide)).1 (by norm_num)
    (by simp [filterByDate, utcExample, recordAugust, recordTrialJuly, recordClubA, truthy,
      dateBetween])

theorem foldl_count_eq {α : Type} (p : α → Bool) (l : List α) (acc : ℚ) :
    l.foldl (fun n x => if p x then n + 1 else n) acc = acc + ((l.filter p).length : ℚ) := by
  induction l generalizing acc with
  | nil => simp
  | cons x xs ih =>
    by_cases h : p x = true
    · simp only [List.foldl_cons, h, if_true, ih, List.filter_cons, List.length_cons]
      push_cast; ring
    · simp only [List.foldl_cons, h, if_false, ih, List.filter_cons, Bool.false_eq_true]

/-- C12 (as stated, refuted): in `route.ts`, for a window whose only event is the
creation of an active Millionaire Club subscription, `getSubscriptionConversions`
returns 1 although no `customer.subscription.updated` event exists. -/
theorem created_active_event_is_counted :
    getSubscriptionConversions utcExample (eventsOfWindow [createdActiveEvent])
        "2025-07-01" "2025-07-31" = 1
      ∧ ([createdActiveEvent].filter (fun event =>
          event.type == "customer.subscription.updated" && isTrialToActive event)).length
        = 0 := by
  refine ⟨?_, by decide⟩
  simp [getSubscriptionConversions, utcExample, eventsOfWindow, createdActiveEvent,
    isDirectSubscription, isBudgetdogItem, rawClubA, productKeys, BUDGETDOG_PRODUCTS]

/-- The count of `getSubscriptionConversions` for a window whose two dates parse. -/
theorem getSubscriptionConversions_parsed (env : Builtins) (events : List StripeEvent)
    (startDate endDate : String) (startMs endMs : ℤ)
    (hstart : env.dateParse startDate = some startMs)
    (hend : env.dateParse endDate = some endMs) :
    getSubscriptionConversions env (eventsOfWindow events) startDate endDate
      = (((events.filter (fun event =>
            event.type == "customer.subscription.updated"
              && (event.previous_status == some "trialing"
                && event.object.status == "active"
                && event.object.items.any isMonitoredItem))).length : ℚ)
        + ((events.filter (fun event =>
            event.type == "customer.subscription.created"
              && (event.object.status == "active"
                && event.object.items.any isMonitoredItem))).length : ℚ)) := by
  simp only [getSubscriptionConversions, hstart, hend, eventsOfWindow, foldl_count_eq,
    zero_add, List.filter_filter, isTrialToActive, isDirectSubscription, isBudgetdogItem_eq]
  congr 2
  · congr 1
    apply List.filter_congr
    intro event _
    simp only [Bool.and_comm]
  · congr 1
    apply List.filter_congr
    intro event _
    simp only [Bool.and_comm]

/-- The count of `getSubscriptionConversions` when a date does not parse: the log line
throws and the `catch` returns 0. -/
theorem getSubscriptionConversions_unparsed (env : Builtins)
    (eventsList : String → ℤ → ℤ → Option (List StripeEvent)) (startDate endDate : String)
    (h : env.dateParse startDate = none ∨ env.dateParse endDate = none) :
    getSubscriptionConversions env eventsList startDate endDate = 0 := by
  unfold getSubscriptionConversions
  rcases h with h | h
  · simp only [h]
  · cases hs : env.dateParse startDate with
    | none => simp only [h]
    | some startMs => simp only [h]

/-- C12 (amended): in `route.ts`, for every list of events of the requested window, when
the two dates of the window parse, the count returned by `getSubscriptionConversions`
is the number of `customer.subscription.updated` events from trialing to active on a
subscription with a monitored line item, plus the number of
`customer.subscription.created` events whose subscription is active and has a monitored
line item; events of any other type contribute nothing.  When a date of the window does
not parse the count is 0, whatever the events. -/
theorem getSubscriptionConversions_count (env : Builtins) (events : List StripeEvent)
    (startDate endDate : String) :
    ((env.dateParse startDate).isSome = true → (env.dateParse endDate).isSome = true →
        getSubscriptionConversions env (eventsOfWindow events) startDate endDate
          = (((events.filter (fun event =>
                event.type == "customer.subscription.updated"
                  && (event.previous_status == some "trialing"
                    && event.object.status == "active"
                    && event.object.items.any isMonitoredItem))).length : ℚ)
            + ((events.filter (fun event =>
                event.type == "customer.subscription.created"
                  && (event.object.status == "active"
                    && event.object.items.any isMonitoredItem))).length : ℚ))
        ∧ getSubscriptionConversions env (eventsOfWindow events) startDate endDate
          = getSubscriptionConversions env
              (eventsOfWindow (events.filter (fun event =>
                event.type == "customer.subscription.updated"
                  || event.type == "customer.subscription.created")))
              startDate endDate)
      ∧ ((env.dateParse startDate = none ∨ env.dateParse endDate = none) →
        getSubscriptionConversions env (eventsOfWindow events) startDate endDate = 0) := by
  refine ⟨?_, getSubscriptionConversions_unparsed env _ startDate endDate⟩
  intro hs he
  obtain ⟨startMs, hstart⟩ := Option.isSome_iff_exists.mp hs
  obtain ⟨endMs, hend⟩ := Option.isSome_iff_exists.mp he
  refine ⟨getSubscriptionConversions_parsed env events startDate endDate startMs endMs
    hstart hend, ?_⟩
  rw [getSubscriptionConversions_parsed env events startDate endDate startMs endMs hstart
    hend, getSubscriptionConversions_parsed env _ startDate endDate startMs endMs hstart hend]
  simp only [List.filter_filter]
  congr 2
  · congr 1
    apply List.filter_congr
    intro event _
    by_cases h : event.type = "customer.subscription.updated" <;> simp [h]
  · congr 1
    apply List.filter_congr
    intro event _
    by_cases h : event.type = "customer.subscription.created" <;> simp [h]

/-- C12 (amended), for July 2025 with one trial converted and one subscription created
active: the count is 2; and for a start date that does not parse it is 0. -/
theorem getSubscriptionConversions_count_witness :
    getSubscriptionConversions utcExample
        (eventsOfWindow [trialConvertedEvent, createdActiveEvent]) "2025-07-01" "2025-07-31"
        = 2
      ∧ getSubscriptionConversions utcExample
        (eventsOfWindow [trialConvertedEvent, createdActiveEvent]) "not-a-date" "2025-07-31"
        = 0 := by
  have h := getSubscriptionConversions_count utcExample
    [trialConvertedEvent, createdActiveEvent] "2025-07-01" "2025-07-31"
  have h0 := getSubscriptionConversions_count utcExample
    [trialConvertedEvent, createdActiveEvent] "not-a-date" "2025-07-31"
  refine ⟨?_, h0.2 (Or.inl (by decide))⟩
  rw [(h.1 (by decide) (by decide)).1]
  simp [trialConvertedEvent, createdActiveEvent, rawClubA, isMonitoredItem, productKeys,
    BUDGETDOG_PRODUCTS]
  norm_num

theorem estimatedTrials_eq (a : ℕ) (r : ℚ) (hr : r ≠ 0) :
    (if (a : ℚ) > 0 then mathRound (jsDiv (a : ℚ) (jsDiv r 100)) else 0)
      = if a = 0 then 0 else ((⌊(a : ℚ) * 100 / r + 1 / 2⌋ : ℤ) : ℚ) := by
  by_cases h : a = 0
  · simp [h]
  · have hpos : (a : ℚ) > 0 := by
      have : 0 < a := Nat.pos_of_ne_zero h
      exact_mod_cast this
    have hq : jsDiv (a : ℚ) (jsDiv r 100) = (a : ℚ) * 100 / r := by
      unfold jsDiv
      field_simp
    simp only [hpos, if_true, h, if_false, mathRound, hq]

/-- C13: for every snapshot, `fetchTrialConversionData` of `route.ts` returns three
entries, for the keys of `BUDGETDOG_PRODUCTS` in order; with `a` the number of records of
the product whose status is `active`, the entry has `conversions = a`, the fixed
`conversion_rate` 45, 42 or 38, and `total_trials` the integer `⌊a × 100 / rate + 1/2⌋`
when `a > 0` and 0 when `a = 0`. -/
theorem fetchTrialConversionData_entries (data : List SubscriptionData) :
    fetchTrialConversionData data
      = [{ productId := "prod_S9H5fDgFs9Lv7y"
           conversions := (data.filter (fun sub =>
             sub.product_id == "prod_S9H5fDgFs9Lv7y" && sub.status == "active")).length
           total_trials :=
             if (data.filter (fun sub =>
               sub.product_id == "prod_S9H5fDgFs9Lv7y" && sub.status == "active")).length = 0
             then 0
             else ((⌊(((data.filter (fun sub =>
               sub.product_id == "prod_S9H5fDgFs9Lv7y"
                 && sub.status == "active")).length : ℕ) : ℚ) * 100 / 45 + 1 / 2⌋ : ℤ) : ℚ)
           conversion_rate := 45 },
         { productId := "prod_S8Y6cYg18JDFLG"
           conversions := (data.filter (fun sub =>
             sub.product_id == "prod_S8Y6cYg18JDFLG" && sub.status == "active")).length
           total_trials :=
             if (data.filter (fun sub =>
               sub.product_id == "prod_S8Y6cYg18JDFLG" && sub.status == "active")).length = 0
             then 0
             else ((⌊(((data.filter (fun sub =>
               sub.product_id == "prod_S8Y6cYg18JDFLG"
                 && sub.status == "active")).length : ℕ) : ℚ) * 100 / 42 + 1 / 2⌋ : ℤ) : ℚ)
           conversion_rate := 42 },
         { productId := "prod_RslgGi1t7MBOE6"
           conversions := (data.filter (fun sub =>
             sub.product_id == "prod_RslgGi1t7MBOE6" && sub.status == "active")).length
           total_trials :=
             if (data.filter (fun sub =>
               sub.product_id == "prod_RslgGi1t7MBOE6" && sub.status == "active")).length = 0
             then 0
             else ((⌊(((data.filter (fun sub =>
               sub.product_id == "prod_RslgGi1t7MBOE6"
                 && sub.status == "active")).length : ℕ) : ℚ) * 100 / 38 + 1 / 2⌋ : ℤ) : ℚ)
           conversion_rate := 38 }] := by
  have r1 : orElse (realisticConversionRates.lookup "prod_S9H5fDgFs9Lv7y") 40 = 45 := by
    simp [realisticConversionRates, List.lookup, orElse]
  have r2 : orElse (realisticConversionRates.lookup "prod_S8Y6cYg18JDFLG") 40 = 42 := by
    simp [realisticConversionRates, List.lookup, orElse]
  have r3 : orElse (realisticConversionRates.lookup "prod_RslgGi1t7MBOE6") 40 = 38 := by
    simp [realisticConversionRates, List.lookup, orElse]
  simp only [fetchTrialConversionData, fetchTrialConversionDataWith, productKeys,
    BUDGETDOG_PRODUCTS, List.map_cons, List.map_nil, r1, r2, r3]
  rw [estimatedTrials_eq _ 45 (by norm_num), estimatedTrials_eq _ 42 (by norm_num),
    estimatedTrials_eq _ 38 (by norm_num)]

/-- The value stored under a product name by the loop of `calculateProductMetrics`: the
entry of the product when it has records, no key otherwise. -/
theorem productMetrics_get (dv : ℚ → ℚ → ℚ) (fd : List SubscriptionData)
    (trialData : List TrialConversionData) (entry : String × String)
    (h : entry ∈ BUDGETDOG_PRODUCTS) :
    mapGet (BUDGETDOG_PRODUCTS.foldl (productStep dv fd trialData) []) entry.2
      = if (fd.filter (fun sub => sub.product_id == entry.1)).length = 0 then none
        else some (productEntry dv (fd.filter (fun sub => sub.product_id == entry.1))
          trialData entry.1) := by
  simp only [BUDGETDOG_PRODUCTS, List.mem_cons, List.mem_singleton, List.not_mem_nil,
    or_false] at h
  rcases h with rfl | rfl | rfl <;>
  · simp only [BUDGETDOG_PRODUCTS, List.foldl_cons, List.foldl_nil, productStep]
    generalize productEntry dv (fd.filter (fun sub => sub.product_id == "prod_S9H5fDgFs9Lv7y"))
        trialData "prod_S9H5fDgFs9Lv7y" = e1
    generalize productEntry dv (fd.filter (fun sub => sub.product_id == "prod_S8Y6cYg18JDFLG"))
        trialData "prod_S8Y6cYg18JDFLG" = e2
    generalize productEntry dv (fd.filter (fun sub => sub.product_id == "prod_RslgGi1t7MBOE6"))
        trialData "prod_RslgGi1t7MBOE6" = e3
    generalize (fd.filter (fun sub => sub.product_id == "prod_S9H5fDgFs9Lv7y")).length = n1
    generalize (fd.filter (fun sub => sub.product_id == "prod_S8Y6cYg18JDFLG")).length = n2
    generalize (fd.filter (fun sub => sub.product_id == "prod_RslgGi1t7MBOE6")).length = n3
    by_cases h1 : n1 = 0 <;> by_cases h2 : n2 = 0 <;> by_cases h3 : n3 = 0 <;>
      simp [h1, h2, h3, mapSet, mapHas, mapGet]

/-- C14: for every snapshot and date range, `avg_ltv` of `calculateMetrics` is the sum of
`amount` over all records of its date-filtered set, whatever their status, divided by
the number of distinct `customer_id` of that set, and 0 when the set is empty; every
entry of `calculateProductMetrics` has its `avg_ltv` computed in the same way over the
records of the product in its date-filtered set. -/
theorem avg_ltv_formula (env : Builtins) (data : List SubscriptionData)
    (trialData : List TrialConversionData) (startDate endDate : Option String)
    (conversionsInPeriod : Option ℚ) :
    (calculateMetrics env data trialData startDate endDate conversionsInPeriod).avg_ltv
        = (if filterByDate env data startDate endDate = [] then 0
          else ((filterByDate env data startDate endDate).map SubscriptionData.amount).sum
            / (((filterByDate env data startDate endDate).map
                SubscriptionData.customer_id).toFinset.card : ℚ))
      ∧ ∀ entry ∈ BUDGETDOG_PRODUCTS, ∀ e,
          mapGet (calculateProductMetrics env data trialData startDate endDate) entry.2
            = some e →
          e.avg_ltv
            = (if (filterByDateProduct env data startDate endDate).filter
                  (fun sub => sub.product_id == entry.1) = [] then 0
              else (((filterByDateProduct env data startDate endDate).filter
                  (fun sub => sub.product_id == entry.1)).map SubscriptionData.amount).sum
                / ((((filterByDateProduct env data startDate endDate).filter
                    (fun sub => sub.product_id == entry.1)).map
                      SubscriptionData.customer_id).toFinset.card : ℚ)) := by
  refine ⟨?_, ?_⟩
  · simp only [calculateMetrics, calculateMetricsWith]
    exact avgLtvOf_eq _
  · intro entry hentry e he
    simp only [calculateProductMetrics, calculateProductMetricsWith] at he
    rw [productMetrics_get jsDiv _ trialData entry hentry] at he
    by_cases hlen : ((filterByDateProduct env data startDate endDate).filter
        (fun sub => sub.product_id == entry.1)).length = 0
    · simp [hlen] at he
    · simp only [hlen, if_false, Option.some.injEq] at he
      rw [← he]
      simp only [productEntry]
      exact avgLtvOf_eq _

/-- C14, on the three active records of customers A and B, without a date range: the
entry of the Millionaire Club has `avg_ltv = 60 / 2`. -/
theorem avg_ltv_formula_witness :
    ∃ e, mapGet (calculateProductMetrics utcExample threeActive [] none none)
        "Millionaire Club" = some e ∧ e.avg_ltv = 30 := by
  have hget := productMetrics_get jsDiv (filterByDateProduct utcExample threeActive none none)
    [] ("prod_S9H5fDgFs9Lv7y", "Millionaire Club") (by simp [BUDGETDOG_PRODUCTS])
  have hne : ¬ ((filterByDateProduct utcExample threeActive none none).filter
      (fun sub => sub.product_id == "prod_S9H5fDgFs9Lv7y")).length = 0 := by
    simp [filterByDateProduct, threeActive, recordClubA]
  rw [if_neg hne] at hget
  refine ⟨_, hget, ?_⟩
  have h := (avg_ltv_formula utcExample threeActive [] none none none).2
    ("prod_S9H5fDgFs9Lv7y", "Millionaire Club") (by simp [BUDGETDOG_PRODUCTS]) _ hget
  rw [h]
  simp [filterByDateProduct, threeActive, recordClubA]
  norm_num

theorem filterByDate_append (env : Builtins) (l1 l2 : List SubscriptionData)
    (startDate endDate : Option String) :
    filterByDate env (l1 ++ l2) startDate endDate
      = filterByDate env l1 startDate endDate ++ filterByDate env l2 startDate endDate := by
  cases startDate with
  | none => rfl
  | some s =>
    cases endDate with
    | none => rfl
    | some e =>
      by_cases h : (truthy (some s) && truthy (some e)) = true
      · simp only [filterByDate, h, if_true, List.filter_append]
      · simp [filterByDate, h]

/-- C15 (as stated, refuted): `avg_ltv` follows the date filter and counts records of
every status.  For the two active records of customer A created on 2025-07-15 and
2025-08-15 it is 17.99 for July 2025 and 35.98 without a date range; and without a date
range, adding a trialing record of 24.99 of another customer to the record of customer A
moves it from 17.99 to 21.49. -/
theorem avg_ltv_follows_date_filter :
    (calculateMetrics utcExample [recordClubA, recordAugust] [] (some "2025-07-01")
        (some "2025-07-31") none).avg_ltv = 17.99
      ∧ (calculateMetrics utcExample [recordClubA, recordAugust] [] none none none).avg_ltv
        = 35.98
      ∧ (calculateMetrics utcExample [recordClubA] [] none none none).avg_ltv = 17.99
      ∧ (calculateMetrics utcExample [recordClubA, recordTrialNetwork] [] none none
          none).avg_ltv = 21.49
      ∧ (calculateMetrics utcExample [recordClubA, recordAugust] [] (some "2025-07-01")
          (some "2025-07-31") none).avg_ltv
        ≠ (calculateMetrics utcExample [recordClubA, recordAugust] [] none none none).avg_ltv
      ∧ (calculateMetrics utcExample [recordClubA, recordTrialNetwork] [] none none
          none).avg_ltv
        ≠ (calculateMetrics utcExample [recordClubA] [] none none none).avg_ltv := by
  have hfd : filterByDate utcExample [recordClubA, recordAugust] (some "2025-07-01")
      (some "2025-07-31") = [recordClubA] := by
    simp [filterByDate, utcExample, recordAugust, recordClubA, truthy, dateBetween]
  have h1 : (calculateMetrics utcExample [recordClubA, recordAugust] [] (some "2025-07-01")
      (some "2025-07-31") none).avg_ltv = 17.99 := by
    simp only [calculateMetrics, calculateMetricsWith, hfd]
    rw [avgLtvOf_eq]
    simp [recordClubA]
  have h2 : (calculateMetrics utcExample [recordClubA, recordAugust] [] none none
      none).avg_ltv = 35.98 := by
    simp only [calculateMetrics, calculateMetricsWith, filterByDate]
    rw [avgLtvOf_eq]
    simp [recordClubA, recordAugust]
    norm_num
  have h3 : (calculateMetrics utcExample [recordClubA] [] none none none).avg_ltv
      = 17.99 := by
    simp only [calculateMetrics, calculateMetricsWith, filterByDate]
    rw [avgLtvOf_eq]
    simp [recordClubA]
  have h4 : (calculateMetrics utcExample [recordClubA, recordTrialNetwork] [] none none
      none).avg_ltv = 21.49 := by
    simp only [calculateMetrics, calculateMetricsWith, filterByDate]
    rw [avgLtvOf_eq]
    simp [recordClubA, recordTrialNetwork]
    norm_num
  refine ⟨h1, h2, h3, h4, ?_, ?_⟩
  · rw [h1, h2]; norm_num
  · rw [h4, h3]; norm_num

theorem filterByDate_map_status (env : Builtins) (data : List SubscriptionData)
    (startDate endDate : Option String) (restatus : SubscriptionData → String) :
    filterByDate env (data.map (fun r => { r with status := restatus r })) startDate endDate
      = (filterByDate env data startDate endDate).map
          (fun r => { r with status := restatus r }) := by
  cases startDate with
  | none => rfl
  | some s =>
    cases endDate with
    | none => rfl
    | some e =>
      by_cases h : (truthy (some s) && truthy (some e)) = true
      · simp only [filterByDate, h, if_true, List.filter_map]
        rfl
      · simp [filterByDate, h]

/-- C15 (amended): for every snapshot and every date range, `avg_ltv` is computed from
the date-filtered set, whatever the status of its records: it is the sum of `amount`
over all records of the window divided by the number of their distinct customer ids, 0
for an empty window; so it is the `avg_ltv` obtained without a date range for the
snapshot made of the records of the window, replacing the statuses of the records by any
others does not change it, and records created outside the window do not change it. -/
theorem avg_ltv_of_window (env : Builtins) (data : List SubscriptionData)
    (trialData : List TrialConversionData) (startDate endDate : Option String)
    (conversionsInPeriod : Option ℚ) :
    (calculateMetrics env data trialData startDate endDate conversionsInPeriod).avg_ltv
        = (if filterByDate env data startDate endDate = [] then 0
          else ((filterByDate env data startDate endDate).map SubscriptionData.amount).sum
            / (((filterByDate env data startDate endDate).map
                SubscriptionData.customer_id).toFinset.card : ℚ))
      ∧ (calculateMetrics env data trialData startDate endDate conversionsInPeriod).avg_ltv
        = (calculateMetrics env (filterByDate env data startDate endDate) trialData none none
            none).avg_ltv
      ∧ (∀ restatus : SubscriptionData → String,
          (calculateMetrics env (data.map (fun r => { r with status := restatus r }))
            trialData startDate endDate conversionsInPeriod).avg_ltv
            = (calculateMetrics env data trialData startDate endDate
              conversionsInPeriod).avg_ltv)
      ∧ ∀ outside : List SubscriptionData,
          filterByDate env outside startDate endDate = [] →
          (calculateMetrics env (data ++ outside) trialData startDate endDate
            conversionsInPeriod).avg_ltv
            = (calculateMetrics env data trialData startDate endDate
              conversionsInPeriod).avg_ltv := by
  refine ⟨?_, ?_, ?_, ?_⟩
  · simp only [calculateMetrics, calculateMetricsWith]
    exact avgLtvOf_eq _
  · simp only [calculateMetrics, calculateMetricsWith, filterByDate]
  · intro restatus
    simp only [calculateMetrics, calculateMetricsWith, filterByDate_map_status]
    rw [avgLtvOf_eq, avgLtvOf_eq]
    simp only [List.map_eq_nil_iff, List.map_map]
    rfl
  · intro outside hout
    simp only [calculateMetrics, calculateMetricsWith, filterByDate_append, hout,
      List.append_nil]

/-- C15 (amended), for July 2025: the record created on 2025-08-15 does not change the
`avg_ltv` of the record created on 2025-07-15; and with the trialing record of 24.99 of
another customer in the window, `avg_ltv` is `(17.99 + 24.99) / 2`. -/
theorem avg_ltv_of_window_witness :
    (calculateMetrics utcExample ([recordClubA] ++ [recordAugust]) [] (some "2025-07-01")
        (some "2025-07-31") none).avg_ltv
        = (calculateMetrics utcExample [recordClubA] [] (some "2025-07-01")
          (some "2025-07-31") none).avg_ltv
      ∧ (calculateMetrics utcExample [recordClubA, recordTrialNetwork, recordAugust] []
          (some "2025-07-01") (some "2025-07-31") none).avg_ltv = 21.49 := by
  refine ⟨(avg_ltv_of_window utcExample [recordClubA] [] (some "2025-07-01")
    (some "2025-07-31") none).2.2.2 [recordAugust]
    (by simp [filterByDate, utcExample, recordAugust, truthy, dateBetween]), ?_⟩
  have hfd : filterByDate utcExample [recordClubA, recordTrialNetwork, recordAugust]
      (some "2025-07-01") (some "2025-07-31") = [recordClubA, recordTrialNetwork] := by
    simp [filterByDate, utcExample, recordAugust, recordClubA, recordTrialNetwork, truthy,
      dateBetween]
  rw [(avg_ltv_of_window utcExample [recordClubA, recordTrialNetwork, recordAugust] []
    (some "2025-07-01") (some "2025-07-31") none).1, hfd]
  simp [recordClubA, recordTrialNetwork]
  norm_num

/-- The two accumulators of the predictive LTV loop: the weighted total and the number
of active records over the three products. -/
theorem weightedLtv_eq (fd : List SubscriptionData) :
    weightedLtv fd
      = (215.88 * ((fd.filter (fun sub =>
            sub.product_id == "prod_S9H5fDgFs9Lv7y" && sub.status == "active")).length : ℚ)
          + 299.88 * ((fd.filter (fun sub =>
            sub.product_id == "prod_S8Y6cYg18JDFLG" && sub.status == "active")).length : ℚ)
          + 215.88 * ((fd.filter (fun sub =>
            sub.product_id == "prod_RslgGi1t7MBOE6" && sub.status == "active")).length : ℚ),
        ((fd.filter (fun sub =>
            sub.product_id == "prod_S9H5fDgFs9Lv7y" && sub.status == "active")).length : ℚ)
          + ((fd.filter (fun sub =>
            sub.product_id == "prod_S8Y6cYg18JDFLG" && sub.status == "active")).length : ℚ)
          + ((fd.filter (fun sub =>
            sub.product_id == "prod_RslgGi1t7MBOE6" && sub.status == "active")).length : ℚ)) := by
  have hf : ∀ p : String,
      (fd.filter (fun sub => sub.product_id == p)).filter (fun sub => sub.status == "active")
        = fd.filter (fun sub => sub.product_id == p && sub.status == "active") := by
    intro p
    rw [List.filter_filter]
    apply List.filter_congr
    intro sub _
    exact Bool.and_comm _ _
  simp only [weightedLtv, productKeys, BUDGETDOG_PRODUCTS, List.map_cons, List.map_nil,
    List.foldl_cons, List.foldl_nil, hf, FIXED_LTV, List.lookup]
  generalize (fd.filter (fun sub =>
    sub.product_id == "prod_S9H5fDgFs9Lv7y" && sub.status == "active")).length = n1
  generalize (fd.filter (fun sub =>
    sub.product_id == "prod_S8Y6cYg18JDFLG" && sub.status == "active")).length = n2
  generalize (fd.filter (fun sub =>
    sub.product_id == "prod_RslgGi1t7MBOE6" && sub.status == "active")).length = n3
  by_cases h1 : n1 = 0 <;> by_cases h2 : n2 = 0 <;> by_cases h3 : n3 = 0 <;>
    simp [h1, h2, h3, Nat.pos_iff_ne_zero]

/-- C16: for every snapshot and date range, `predictive_ltv` is the average of the fixed
annual values 215.88 (17.99 × 12, Millionaire Club and Academy) and 299.88 (24.99 × 12,
Network) weighted by the numbers of active records of the three products in the
date-filtered set, and 0 when there is no such record. -/
theorem predictive_ltv_formula (env : Builtins) (data : List SubscriptionData)
    (trialData : List TrialConversionData) (startDate endDate : Option String)
    (conversionsInPeriod : Option ℚ) :
    (calculateMetrics env data trialData startDate endDate
        conversionsInPeriod).predictive_ltv
        = (if ((filterByDate env data startDate endDate).filter (fun sub =>
                sub.product_id == "prod_S9H5fDgFs9Lv7y" && sub.status == "active")).length
              + ((filterByDate env data startDate endDate).filter (fun sub =>
                sub.product_id == "prod_S8Y6cYg18JDFLG" && sub.status == "active")).length
              + ((filterByDate env data startDate endDate).filter (fun sub =>
                sub.product_id == "prod_RslgGi1t7MBOE6" && sub.status == "active")).length
              = 0 then 0
          else
            (215.88 * (((filterByDate env data startDate endDate).filter (fun sub =>
                sub.product_id == "prod_S9H5fDgFs9Lv7y" && sub.status == "active")).length : ℚ)
              + 299.88 * (((filterByDate env data startDate endDate).filter (fun sub =>
                sub.product_id == "prod_S8Y6cYg18JDFLG" && sub.status == "active")).length : ℚ)
              + 215.88 * (((filterByDate env data startDate endDate).filter (fun sub =>
                sub.product_id == "prod_RslgGi1t7MBOE6"
                  && sub.status == "active")).length : ℚ))
            / ((((filterByDate env data startDate endDate).filter (fun sub =>
                sub.product_id == "prod_S9H5fDgFs9Lv7y" && sub.status == "active")).length : ℚ)
              + (((filterByDate env data startDate endDate).filter (fun sub =>
                sub.product_id == "prod_S8Y6cYg18JDFLG" && sub.status == "active")).length : ℚ)
              + (((filterByDate env data startDate endDate).filter (fun sub =>
                sub.product_id == "prod_RslgGi1t7MBOE6"
                  && sub.status == "active")).length : ℚ)))
      ∧ FIXED_LTV = [("prod_S9H5fDgFs9Lv7y", 17.99 * 12), ("prod_S8Y6cYg18JDFLG", 24.99 * 12),
          ("prod_RslgGi1t7MBOE6", 17.99 * 12)] := by
  refine ⟨?_, ?_⟩
  · simp only [calculateMetrics, calculateMetricsWith, weightedLtv_eq, jsDiv]
    generalize ((filterByDate env data startDate endDate).filter (fun sub =>
      sub.product_id == "prod_S9H5fDgFs9Lv7y" && sub.status == "active")).length = n1
    generalize ((filterByDate env data startDate endDate).filter (fun sub =>
      sub.product_id == "prod_S8Y6cYg18JDFLG" && sub.status == "active")).length = n2
    generalize ((filterByDate env data startDate endDate).filter (fun sub =>
      sub.product_id == "prod_RslgGi1t7MBOE6" && sub.status == "active")).length = n3
    by_cases h : n1 + n2 + n3 = 0
    · have hq : ((n1 : ℚ) + n2 + n3) = 0 := by exact_mod_cast h
      simp [h, hq]
    · have hpos : 0 < n1 + n2 + n3 := Nat.pos_of_ne_zero h
      have hq : ((n1 : ℚ) + n2 + n3) > 0 := by exact_mod_cast hpos
      simp only [h, if_false, hq, if_true]
  · simp only [FIXED_LTV]
    norm_num

/-- C17 (as stated, refuted): for July 2025 with 3 conversions counted in the period,
`active` is 3 although the date-filtered set holds one active record. -/
theorem active_is_period_conversions :
    (calculateMetrics utcExample [recordClubA] [] (some "2025-07-01") (some "2025-07-31")
        (some 3)).active = 3
      ∧ ((filterByDate utcExample [recordClubA] (some "2025-07-01") (some "2025-07-31")).filter
          (fun sub => sub.status == "active")).length = 1 := by
  have hfd : filterByDate utcExample [recordClubA] (some "2025-07-01") (some "2025-07-31")
      = [recordClubA] := by
    simp [filterByDate, utcExample, recordClubA, truthy, dateBetween]
  refine ⟨?_, ?_⟩
  · simp [calculateMetrics, calculateMetricsWith, truthy, orElse]
  · rw [hfd]; simp [recordClubA]

/-- C17 (amended): for every snapshot and every supplied date range, `trialing` and
`cancelled` are the numbers of records of the date-filtered set whose status is
`trialing` and `canceled`; `active` is `conversionsInPeriod` when that is supplied and
not 0, and the number of records of the date-filtered set whose status is `active`
otherwise. -/
theorem ranged_counts (env : Builtins) (data : List SubscriptionData)
    (trialData : List TrialConversionData) (startDate endDate : Option String)
    (conversionsInPeriod : Option ℚ) (hr : (truthy startDate && truthy endDate) = true) :
    (calculateMetrics env data trialData startDate endDate conversionsInPeriod).trialing
        = (((filterByDate env data startDate endDate).filter
            (fun sub => sub.status == "trialing")).length : ℚ)
      ∧ (calculateMetrics env data trialData startDate endDate conversionsInPeriod).cancelled
        = (((filterByDate env data startDate endDate).filter
            (fun sub => sub.status == "canceled")).length : ℚ)
      ∧ (∀ c : ℚ, conversionsInPeriod = some c → c ≠ 0 →
          (calculateMetrics env data trialData startDate endDate conversionsInPeriod).active
            = c)
      ∧ ((conversionsInPeriod = none ∨ conversionsInPeriod = some 0) →
          (calculateMetrics env data trialData startDate endDate conversionsInPeriod).active
            = (((filterByDate env data startDate endDate).filter
                (fun sub => sub.status == "active")).length : ℚ)) := by
  refine ⟨?_, ?_, ?_, ?_⟩
  · simp only [calculateMetrics, calculateMetricsWith]
  · simp only [calculateMetrics, calculateMetricsWith]
  · intro c hc hne
    simp [calculateMetrics, calculateMetricsWith, hr, hc, orElse, hne]
  · rintro (hc | hc) <;> simp [calculateMetrics, calculateMetricsWith, hr, hc, orElse]

/-- C17 (amended), for July 2025 without a count of conversions: `active` is the one
active record of the window. -/
theorem ranged_counts_witness :
    (calculateMetrics utcExample [recordClubA, recordAugust] [] (some "2025-07-01")
        (some "2025-07-31") none).active
      = (((filterByDate utcExample [recordClubA, recordAugust] (some "2025-07-01")
          (some "2025-07-31")).filter (fun sub => sub.status == "active")).length : ℚ) :=
  (ranged_counts utcExample [recordClubA, recordAugust] [] (some "2025-07-01")
    (some "2025-07-31") none (by decide)).2.2.2 (Or.inl rfl)

/-- C18 (the defect): for the window 2025-07-01 to 2025-07-31 on a server in UTC, the
active Millionaire Club record created on 2025-07-31 at noon is kept by
`calculateMetrics` (`total_records = 1`) and dropped by `calculateProductMetrics`, whose
result has no key. -/
theorem product_filter_stops_at_midnight :
    (calculateMetrics utcExample [recordJulyEnd] [] (some "2025-07-01") (some "2025-07-31")
        none).total_records = 1
      ∧ calculateProductMetrics utcExample [recordJulyEnd] [] (some "2025-07-01")
          (some "2025-07-31") = []
      ∧ recordJulyEnd.product_id ∈ productKeys := by
  have hfd : filterByDate utcExample [recordJulyEnd] (some "2025-07-01") (some "2025-07-31")
      = [recordJulyEnd] := by
    simp [filterByDate, utcExample, recordJulyEnd, recordClubA, truthy, dateBetween]
  have hfp : filterByDateProduct utcExample [recordJulyEnd] (some "2025-07-01")
      (some "2025-07-31") = [] := by
    simp [filterByDateProduct, utcExample, recordJulyEnd, recordClubA, truthy, dateBetween]
  refine ⟨?_, ?_, by decide⟩
  · simp [calculateMetrics, calculateMetricsWith, hfd, truthy]
  · simp [calculateProductMetrics, calculateProductMetricsWith, hfp, BUDGETDOG_PRODUCTS,
      productStep]

/-- C19: for every input of `calculateMetrics`, `take_rate_data` is the same value: the
history is the fixed table of May, June and July 2025, and the rate 36.2, the 34 signups
and the 94 new students are those of its last entry. -/
theorem take_rate_data_constant (env : Builtins) (data : List SubscriptionData)
    (trialData : List TrialConversionData) (startDate endDate : Option String)
    (conversionsInPeriod : Option ℚ) :
    (calculateMetrics env data trialData startDate endDate conversionsInPeriod).take_rate_data
      = { take_rate := 36.2
          new_bda_students := 94
          avery_signups := 34
          calculation_note := "July 2025: 34 trial signups from 94 new BDA students"
          monthly_history :=
            [{ month := "May 2025", rate := 36.7, signups := 18, newMembers := 49 },
             { month := "June 2025", rate := 41.4, signups := 29, newMembers := 70 },
             { month := "July 2025", rate := 36.2, signups := 34, newMembers := 94 }] } := by
  have hlast : currentTakeRate
      = { month := "July 2025", rate := 36.2, signups := 34, newMembers := 94 } := by
    simp [currentTakeRate, monthlyTakeRates]
  have hnote : "July 2025" ++ ": " ++ toString (34 : ℕ) ++ " trial signups from "
      ++ toString (94 : ℕ) ++ " new BDA students"
      = "July 2025: 34 trial signups from 94 new BDA students" := by decide
  simp only [calculateMetrics, calculateMetricsWith, takeRateData, hlast, hnote,
    monthlyTakeRates]

/-- The value of a call of `fetchStripeData` that goes to the provider, when the listing
succeeds: the expected records, in listing order. -/
theorem fetchStripeData_stale_result (env : Builtins) (retrieve : String → Option Customer)
    (items : List RawSubscription) (cachedData : Option CachedData) (now nowStore : ℤ)
    (hstale : ¬ ∃ held, cachedData = some held ∧ now - held.timestamp < CACHE_DURATION) :
    (fetchStripeData env retrieve { items := items, fails := false } cachedData now
        nowStore).result
      = .ok (items.filterMap (expectedRecord env retrieve)) := by
  have hfold := processSubscription_foldl env retrieve items
    { subscriptions := [], customerCache := [], lookups := [] }
    (by intro k hk; simp [mapHas] at hk)
  have hfresh : (fetchFresh env retrieve { items := items, fails := false } cachedData
      nowStore).result = .ok (items.filterMap (expectedRecord env retrieve)) := by
    simp [fetchFresh, hfold]
  cases cachedData with
  | none => simpa [fetchStripeData] using hfresh
  | some held =>
    have hlt : ¬ now - held.timestamp < CACHE_DURATION := fun h => hstale ⟨held, rfl, h⟩
    simpa [fetchStripeData, hlt] using hfresh

/-- C20: when the customer lookup of a raw subscription with a monitored line item
fails, a call of `fetchStripeData` that goes to the provider still succeeds; its list
holds, at the place of that subscription, a record of it with `customer_email = ''`,
and around it exactly the records that the same listing without that subscription
gives. -/
theorem failed_lookup_keeps_record (env : Builtins) (retrieve : String → Option Customer)
    (before after : List RawSubscription) (sub : RawSubscription)
    (cachedData : Option CachedData) (now nowStore : ℤ)
    (hstale : ¬ ∃ held, cachedData = some held ∧ now - held.timestamp < CACHE_DURATION)
    (hmon : sub.items.any isMonitoredItem = true)
    (hfail : retrieve sub.customer = none) :
    "" ∉ EXCLUDED_EMAILS
      ∧ ∃ (r : SubscriptionData) (outBefore outAfter : List SubscriptionData),
          (fetchStripeData env retrieve { items := before ++ sub :: after, fails := false }
            cachedData now nowStore).result = .ok (outBefore ++ r :: outAfter)
          ∧ (fetchStripeData env retrieve { items := before ++ after, fails := false }
            cachedData now nowStore).result = .ok (outBefore ++ outAfter)
          ∧ r.customer_email = ""
          ∧ r.subscription_id = sub.id
          ∧ r.customer_id = sub.customer
          ∧ r.product_id ∈ productKeys := by
  have hex : "" ∉ EXCLUDED_EMAILS := by decide
  have hres : resolvedEmail env retrieve sub.customer = "" := by
    simp [resolvedEmail, hfail]
  obtain ⟨item, hitem, hmonItem⟩ := List.any_eq_true.mp hmon
  cases hfind : sub.items.find? isMonitoredItem with
  | none =>
    rw [List.find?_eq_none] at hfind
    exact absurd hmonItem (hfind item hitem)
  | some found =>
    have hfound : isMonitoredItem found = true := List.find?_some hfind
    cases hprice : found.price with
    | none => simp [isMonitoredItem, hprice] at hfound
    | some price =>
      have hkey : price.product ∈ productKeys := by
        simpa [isMonitoredItem, hprice] using hfound
      have hrec : expectedRecord env retrieve sub
          = some
              { subscription_id := sub.id
                customer_id := sub.customer
                customer_email := ""
                product_id := price.product
                status := sub.status
                amount := orElse price.unit_amount 0 / 100
                created_at := env.toISOString (sub.created * 1000) } := by
        simp [expectedRecord, hfind, hprice, hres, hex]
      refine ⟨hex,
        { subscription_id := sub.id
          customer_id := sub.customer
          customer_email := ""
          product_id := price.product
          status := sub.status
          amount := orElse price.unit_amount 0 / 100
          created_at := env.toISOString (sub.created * 1000) },
        before.filterMap (expectedRecord env retrieve),
        after.filterMap (expectedRecord env retrieve), ?_, ?_, rfl, rfl, rfl, hkey⟩
      · rw [fetchStripeData_stale_result env retrieve _ cachedData now nowStore hstale]
        simp [List.filterMap_append, List.filterMap_cons, hrec]
      · rw [fetchStripeData_stale_result env retrieve _ cachedData now nowStore hstale]
        simp [List.filterMap_append]

/-- C20, on the listing of `rawClubA` followed by an unmonitored subscription, with a
customer lookup that always fails and no snapshot held. -/
theorem failed_lookup_keeps_record_witness :
    "" ∉ EXCLUDED_EMAILS
      ∧ ∃ (r : SubscriptionData) (outBefore outAfter : List SubscriptionData),
          (fetchStripeData utcExample lookupFails
            { items := [] ++ rawClubA :: [rawOther], fails := false } none 0 0).result
            = .ok (outBefore ++ r :: outAfter)
          ∧ (fetchStripeData utcExample lookupFails
            { items := [] ++ [rawOther], fails := false } none 0 0).result
            = .ok (outBefore ++ outAfter)
          ∧ r.customer_email = ""
          ∧ r.subscription_id = rawClubA.id
          ∧ r.customer_id = rawClubA.customer
          ∧ r.product_id ∈ productKeys :=
  failed_lookup_keeps_record utcExample lookupFails [] [rawOther] rawClubA none 0 0
    (by simp) (by decide) rfl

/-- C21 (the defect): for a listing of one Millionaire Club subscription whose status is
`past_due`, `fetchStripeData` returns a record whose status is `past_due`, none of the
three values of the interface `SubscriptionData`. -/
theorem past_due_status_is_copied :
    (fetchStripeData utcExample lookupUpper { items := [rawPastDue], fails := false }
        none 0 0).result = .ok [{ recordClubA with status := "past_due" }]
      ∧ "past_due" ∉ ["active", "trialing", "canceled"] := by
  refine ⟨?_, by decide⟩
  rw [fetchStripeData_stale_result utcExample lookupUpper [rawPastDue] none 0 0 (by simp)]
  refine congrArg Except.ok ?_
  simp [expectedRecord, rawPastDue, rawClubA, recordClubA, lookupUpper, isMonitoredItem,
    productKeys, BUDGETDOG_PRODUCTS, resolvedEmail, utcExample, EXCLUDED_EMAILS, orElse]
  norm_num

/-- C22 (the defect): for a listing of two Millionaire Club subscriptions of the customer
`cus_A`, a customer lookup that fails is made twice for `cus_A`, while a lookup that
succeeds is made once. -/
theorem failed_lookup_is_repeated :
    (fetchStripeData utcExample lookupFails
        { items := [rawClubA, rawClubSecond], fails := false } none 0 0).lookups
        = ["cus_A", "cus_A"]
      ∧ (fetchStripeData utcExample lookupUpper
        { items := [rawClubA, rawClubSecond], fails := false } none 0 0).lookups
        = ["cus_A"] := by
  refine ⟨?_, ?_⟩
  · simp [fetchStripeData, fetchFresh, processSubscription, rawClubA, rawClubSecond,
      lookupFails, isBudgetdogItem, productKeys, BUDGETDOG_PRODUCTS, mapHas, mapGet, mapSet,
      EXCLUDED_EMAILS]
  · simp [fetchStripeData, fetchFresh, processSubscription, rawClubA, rawClubSecond,
      lookupUpper, isBudgetdogItem, productKeys, BUDGETDOG_PRODUCTS, mapHas, mapGet, mapSet,
      EXCLUDED_EMAILS, utcExample]

theorem getElem?_append_cons_length {α : Type} (pre : List α) (x : α) (tl : List α) :
    (pre ++ x :: tl)[pre.length]? = some x := by
  rw [List.getElem?_append_right (Nat.le_refl _)]
  simp

/-- The loop of `fetchAllStripeEvents` against a script: from a state reached after the
pages `pre`, with the pages `pages` and then `last` still to come, it returns after one
request per page. -/
theorem fetchAllLoop_scripted (eventType : String) (startTime endTime : ℤ)
    (last : Route2.EventPage) (hlast : last.has_more = false) (extra : ℕ)
    (pages pre : List Route2.EventPage) (allEvents : List StripeEvent)
    (startingAfter : Option String) (requests : List Route2.EventsRequest)
    (hlen : requests.length = pre.length)
    (hmore : ∀ page ∈ pages, page.has_more = true ∧ page.data ≠ [])
    (hids : ∀ page ∈ pages, ∀ event ∈ page.data, event.id ≠ "") :
    Route2.fetchAllLoop (Route2.scripted (pre ++ pages ++ [last])) eventType startTime endTime
        (pages.length + 1 + extra) allEvents startingAfter requests
      = .returned
          { events := allEvents ++ ((pages ++ [last]).map Route2.EventPage.data).flatten
            requests := requests ++
              { type := eventType, gte := startTime, lte := endTime, limit := 100
                starting_after := if truthy startingAfter then startingAfter else none }
                :: pages.map (Route2.requestAfter eventType startTime endTime) } := by
  induction pages generalizing pre allEvents startingAfter requests with
  | nil =>
    have hget : ∀ request, Route2.scripted (pre ++ [] ++ [last]) requests.length request
        = some last := by
      intro request
      simp only [Route2.scripted, hlen, List.append_nil]
      exact getElem?_append_cons_length pre last []
    have hfuel : ([] : List Route2.EventPage).length + 1 + extra = extra + 1 := by
      simp [Nat.add_comm]
    rw [hfuel]
    simp only [Route2.fetchAllLoop, hget, hlast, Bool.false_eq_true, if_false]
    simp
  | cons page rest ih =>
    have hget : ∀ request,
        Route2.scripted (pre ++ page :: rest ++ [last]) requests.length request
          = some page := by
      intro request
      simp only [Route2.scripted, hlen, List.append_assoc, List.cons_append]
      exact getElem?_append_cons_length pre page (rest ++ [last])
    have hfuel : (page :: rest).length + 1 + extra = (rest.length + 1 + extra) + 1 := by
      simp only [List.length_cons]; omega
    obtain ⟨hpm, hpd⟩ := hmore page (List.mem_cons_self _ _)
    have hposlen : page.data.length > 0 := List.length_pos.mpr hpd
    obtain ⟨lastEvent, hle⟩ : ∃ ev, page.data.getLast? = some ev := by
      cases hl : page.data.getLast? with
      | none => exact absurd (List.getLast?_eq_none_iff.mp hl) hpd
      | some ev => exact ⟨ev, rfl⟩
    have hid : lastEvent.id ≠ "" :=
      hids page (List.mem_cons_self _ _) lastEvent (List.mem_of_getLast?_eq_some hle)
    have htruthy : truthy (some lastEvent.id) = true := by
      simp [truthy, hid]
    have hpre : pre ++ page :: rest ++ [last] = (pre ++ [page]) ++ rest ++ [last] := by
      simp
    rw [hfuel]
    simp only [Route2.fetchAllLoop, hget, hpm, hposlen, decide_True,
      Bool.and_self, if_true, hle, Option.map_some']
    rw [hpre, ih (pre ++ [page]) _ _ _ (by simp [hlen])
      (fun p hp => hmore p (List.mem_cons_of_mem _ hp))
      (fun p hp => hids p (List.mem_cons_of_mem _ hp))]
    simp [htruthy, Route2.requestAfter, hle]

/-- C23: for every finite sequence of pages whose pages but the last report
`has_more = true` and are non-empty, and whose last page reports `has_more = false`,
`fetchAllStripeEvents` of `route 2.ts` returns, as soon as the loop may run once per
page, the concatenation of the pages in order; it sends one request per page, the first
without a cursor and each later one with `starting_after` the id of the last event of
the page before.  Event ids are not empty, as the ids of the provider are. -/
theorem fetchAllStripeEvents_pages (eventType : String) (startTime endTime : ℤ)
    (pages : List Route2.EventPage) (last : Route2.EventPage) (extra : ℕ)
    (hmore : ∀ page ∈ pages, page.has_more = true ∧ page.data ≠ [])
    (hlast : last.has_more = false)
    (hids : ∀ page ∈ pages, ∀ event ∈ page.data, event.id ≠ "") :
    Route2.fetchAllStripeEvents (Route2.scripted (pages ++ [last])) eventType startTime endTime
        (pages.length + 1 + extra)
      = .returned
          { events := ((pages ++ [last]).map Route2.EventPage.data).flatten
            requests :=
              { type := eventType, gte := startTime, lte := endTime, limit := 100
                starting_after := none }
                :: pages.map (Route2.requestAfter eventType startTime endTime) }
      ∧ ({ type := eventType, gte := startTime, lte := endTime, limit := 100
           starting_after := none }
          :: pages.map (Route2.requestAfter eventType startTime endTime)).length
        = (pages ++ [last]).length := by
  refine ⟨?_, by simp⟩
  have h := fetchAllLoop_scripted eventType startTime endTime last hlast extra pages [] []
    none [] rfl hmore hids
  simpa [Route2.fetchAllStripeEvents, truthy] using h

/-- C23, for a script of two pages of one event each: two requests, the second with the
id of the first event as cursor. -/
theorem fetchAllStripeEvents_pages_witness :
    Route2.fetchAllStripeEvents (Route2.scripted [Route2.firstPage, Route2.secondPage])
        "customer.subscription.updated" 0 10 2
      = .returned
          { events := [createdActiveEvent, trialConvertedEvent]
            requests :=
              [{ type := "customer.subscription.updated", gte := 0, lte := 10, limit := 100
                 starting_after := none },
               { type := "customer.subscription.updated", gte := 0, lte := 10, limit := 100
                 starting_after := some "evt_1" }] } := by
  have h := (fetchAllStripeEvents_pages "customer.subscription.updated" 0 10
    [Route2.firstPage] Route2.secondPage 0
    (by simp [Route2.firstPage]) rfl
    (by simp [Route2.firstPage, createdActiveEvent])).1
  simpa [Route2.firstPage, Route2.secondPage, Route2.requestAfter, createdActiveEvent]
    using h

/-- One iteration of the loop of `fetchAllStripeEvents` on an empty page that reports
`has_more = true`: the events and the cursor are unchanged. -/
theorem fetchAllLoop_empty_step (answer : Route2.EventsRequest → Option Route2.EventPage)
    (eventType : String) (startTime endTime : ℤ) (startingAfter : Option String)
    (hpage : answer (Route2.requestFor eventType startTime endTime startingAfter)
      = some { data := [], has_more := true })
    (fuel : ℕ) (allEvents : List StripeEvent) (requests : List Route2.EventsRequest) :
    Route2.fetchAllLoop (Route2.stateless answer) eventType startTime endTime (fuel + 1)
        allEvents startingAfter requests
      = Route2.fetchAllLoop (Route2.stateless answer) eventType startTime endTime fuel
          allEvents startingAfter
          (requests ++ [Route2.requestFor eventType startTime endTime startingAfter]) := by
  have hp : Route2.stateless answer requests.length
      { type := eventType, gte := startTime, lte := endTime, limit := 100
        starting_after := if truthy startingAfter then startingAfter else none }
      = some { data := [], has_more := true } := hpage
  simp only [Route2.fetchAllLoop, hp, Route2.requestFor]
  simp

theorem fetchAllLoop_empty_forever (answer : Route2.EventsRequest → Option Route2.EventPage)
    (eventType : String) (startTime endTime : ℤ) (startingAfter : Option String)
    (hpage : answer (Route2.requestFor eventType startTime endTime startingAfter)
      = some { data := [], has_more := true })
    (fuel : ℕ) (allEvents : List StripeEvent) (requests : List Route2.EventsRequest) :
    Route2.fetchAllLoop (Route2.stateless answer) eventType startTime endTime fuel
        allEvents startingAfter requests = .outOfFuel := by
  induction fuel generalizing requests with
  | zero => rfl
  | succ n ih =>
    rw [fetchAllLoop_empty_step answer eventType startTime endTime startingAfter hpage]
    exact ih _

/-- When the loop of `fetchAllStripeEvents` returns against a provider whose answer
depends on the request only, no request that it sent was answered by an empty page with
`has_more = true`. -/
theorem fetchAllLoop_returned_pages (answer : Route2.EventsRequest → Option Route2.EventPage)
    (eventType : String) (startTime endTime : ℤ) (fuel : ℕ) (allEvents : List StripeEvent)
    (startingAfter : Option String) (requests : List Route2.EventsRequest)
    (result : Route2.EventsFetch)
    (hret : Route2.fetchAllLoop (Route2.stateless answer) eventType startTime endTime fuel
      allEvents startingAfter requests = .returned result)
    (hreq : ∀ request ∈ requests, ∀ page, answer request = some page →
      page.has_more = true → page.data ≠ []) :
    ∀ request ∈ result.requests, ∀ page, answer request = some page →
      page.has_more = true → page.data ≠ [] := by
  induction fuel generalizing allEvents startingAfter requests with
  | zero => simp [Route2.fetchAllLoop] at hret
  | succ n ih =>
    cases hans : answer (Route2.requestFor eventType startTime endTime startingAfter) with
    | none =>
      have hp : Route2.stateless answer requests.length
          { type := eventType, gte := startTime, lte := endTime, limit := 100
            starting_after := if truthy startingAfter then startingAfter else none }
          = none := hans
      simp [Route2.fetchAllLoop, hp] at hret
    | some page =>
      have hp : Route2.stateless answer requests.length
          { type := eventType, gte := startTime, lte := endTime, limit := 100
            starting_after := if truthy startingAfter then startingAfter else none }
          = some page := hans
      have hnew : ∀ request ∈ requests ++
          [Route2.requestFor eventType startTime endTime startingAfter],
          ∀ pg, answer request = some pg → pg.has_more = true → pg.data ≠ [] := by
        intro request hmem pg hpg hm
        rcases List.mem_append.mp hmem with h | h
        · exact hreq request h pg hpg hm
        · simp only [List.mem_singleton] at h
          subst h
          rw [hans] at hpg
          have hpgeq : page = pg := Option.some.inj hpg
          subst hpgeq
          intro hempty
          have hform : page = { data := [], has_more := true } := by
            cases page with
            | mk d m =>
              simp only at hempty hm
              simp [hempty, hm]
          rw [hform] at hans
          have hnever := fetchAllLoop_empty_forever answer eventType startTime endTime
            startingAfter hans (n + 1) allEvents requests
          rw [hnever] at hret
          exact Route2.Run.noConfusion hret
      cases hm : page.has_more with
      | true =>
        simp only [Route2.fetchAllLoop, hp, hm, if_true] at hret
        exact ih _ _ _ hret hnew
      | false =>
        simp only [Route2.fetchAllLoop, hp, hm, Bool.false_eq_true, if_false,
          Route2.Run.returned.injEq] at hret
        rw [← hret]
        exact hnew

/-- C30: in `fetchAllStripeEvents`, against a provider whose answer depends on the
request only, a page with `has_more = true` and no event leaves the cursor and the
events unchanged, so that the next request is the same request, and the loop does not
end however many iterations it is given; and whenever the function returns, every
request it sent was answered by a page that is non-empty or reports `has_more = false`. -/
theorem empty_page_never_terminates
    (answer : Route2.EventsRequest → Option Route2.EventPage) (eventType : String)
    (startTime endTime : ℤ) :
    (∀ startingAfter : Option String,
        answer (Route2.requestFor eventType startTime endTime startingAfter)
          = some { data := [], has_more := true } →
        (∀ fuel allEvents requests,
          Route2.fetchAllLoop (Route2.stateless answer) eventType startTime endTime (fuel + 1)
              allEvents startingAfter requests
            = Route2.fetchAllLoop (Route2.stateless answer) eventType startTime endTime fuel
                allEvents startingAfter
                (requests ++ [Route2.requestFor eventType startTime endTime startingAfter]))
        ∧ ∀ fuel allEvents requests,
          Route2.fetchAllLoop (Route2.stateless answer) eventType startTime endTime fuel
            allEvents startingAfter requests = .outOfFuel)
      ∧ (answer (Route2.requestFor eventType startTime endTime none)
          = some { data := [], has_more := true } →
        ∀ fuel, Route2.fetchAllStripeEvents (Route2.stateless answer) eventType startTime
          endTime fuel = .outOfFuel)
      ∧ (∀ fuel result,
          Route2.fetchAllStripeEvents (Route2.stateless answer) eventType startTime endTime
            fuel = .returned result →
          ∀ request ∈ result.requests, ∀ page, answer request = some page →
            page.has_more = true → page.data ≠ []) := by
  refine ⟨?_, ?_, ?_⟩
  · intro startingAfter hpage
    exact ⟨fun fuel allEvents requests =>
        fetchAllLoop_empty_step answer eventType startTime endTime startingAfter hpage fuel
          allEvents requests,
      fun fuel allEvents requests =>
        fetchAllLoop_empty_forever answer eventType startTime endTime startingAfter hpage
          fuel allEvents requests⟩
  · intro hpage fuel
    exact fetchAllLoop_empty_forever answer eventType startTime endTime none hpage fuel [] []
  · intro fuel result hret
    exact fetchAllLoop_returned_pages answer eventType startTime endTime fuel [] none []
      result hret (by simp)

/-- C30, against the provider that always answers an empty page with `has_more = true`:
a thousand iterations do not end the loop. -/
theorem empty_page_never_terminates_witness :
    Route2.fetchAllStripeEvents (Route2.stateless Route2.emptyForever)
      "customer.subscription.updated" 0 10 1000 = .outOfFuel :=
  (empty_page_never_terminates Route2.emptyForever "customer.subscription.updated" 0 10).2.1
    rfl 1000

theorem fetchStripeData_cached_after (env : Builtins) (retrieve : String → Option Customer)
    (listing : Listing) (cachedData : Option CachedData) (now : ℤ)
    (data : List SubscriptionData)
    (hok : (fetchStripeData env retrieve listing cachedData now now).result = .ok data) :
    ∃ held, (fetchStripeData env retrieve listing cachedData now now).cachedData = some held
      ∧ now - held.timestamp < CACHE_DURATION := by
  have hfresh : (fetchFresh env retrieve listing cachedData now).result = .ok data →
      ∃ held, (fetchFresh env retrieve listing cachedData now).cachedData = some held
        ∧ now - held.timestamp < CACHE_DURATION := by
    intro h
    cases hf : listing.fails with
    | true => simp [fetchFresh, hf] at h
    | false =>
      refine ⟨{ data := [] ++ (listing.items.foldl (processSubscription env retrieve)
          { subscriptions := [], customerCache := [], lookups := [] }).subscriptions
                timestamp := now }, ?_, ?_⟩
      · simp only [fetchFresh, hf, Bool.false_eq_true, if_false]
      · simp [CACHE_DURATION]
  cases cachedData with
  | none => exact hfresh (by simpa [fetchStripeData] using hok)
  | some held =>
    by_cases hlt : now - held.timestamp < CACHE_DURATION
    · exact ⟨held, by simp [fetchStripeData, hlt], hlt⟩
    · simp only [fetchStripeData, hlt, if_false] at hok ⊢
      exact hfresh hok

theorem fetchStripeData_error_message (env : Builtins) (retrieve : String → Option Customer)
    (listing : Listing) (cachedData : Option CachedData) (now nowStore : ℤ) (message : String)
    (herr : (fetchStripeData env retrieve listing cachedData now nowStore).result
      = .error message) :
    message = "Failed to fetch subscription data" := by
  have hfresh : (fetchFresh env retrieve listing cachedData nowStore).result = .error message →
      message = "Failed to fetch subscription data" := by
    intro h
    cases hf : listing.fails with
    | true =>
      simp only [fetchFresh, hf, if_true, Except.error.injEq] at h
      exact h.symm
    | false => simp [fetchFresh, hf] at h
  cases cachedData with
  | none => exact hfresh (by simpa [fetchStripeData] using herr)
  | some held =>
    by_cases hlt : now - held.timestamp < CACHE_DURATION
    · simp [fetchStripeData, hlt] at herr
    · simp only [fetchStripeData, hlt, if_false] at herr
      exact hfresh herr

theorem getSubscriptionConversions_of_failure (env : Builtins)
    (eventsList : String → ℤ → ℤ → Option (List StripeEvent))
    (startDate endDate : String) (startMs endMs : ℤ)
    (hstart : env.dateParse startDate = some startMs)
    (hend : env.dateParse endDate = some endMs)
    (hfail : eventsList "customer.subscription.updated" (startMs / 1000) (endMs / 1000)
        = none
      ∨ eventsList "customer.subscription.created" (startMs / 1000) (endMs / 1000) = none) :
    getSubscriptionConversions env eventsList startDate endDate = 0 := by
  simp only [getSubscriptionConversions, hstart, hend]
  rcases hfail with h | h
  · simp only [h]
  · cases hu : eventsList "customer.subscription.updated" (startMs / 1000) (endMs / 1000) with
    | none => rfl
    | some updates => simp only [h]

/-- C24: when `fetchStripeData` throws, `GET` answers status 500 with
`success: false`, `error: 'Failed to fetch metrics data'` and
`details: 'Failed to fetch subscription data'`; when it resolves to `data`, `GET` answers
`success: true` with `metrics = calculateMetrics(...)`,
`productMetrics = calculateProductMetrics(...)` and `trialConversions` the trial data of
`data`, whatever the events provider does and whether or not the dates parse; and every
failure inside `getSubscriptionConversions`, a date that does not parse or a listing of
events that throws, makes it return 0, so that `GET` passes the count 0 to
`calculateMetrics`. -/
theorem GET_envelope (env : Builtins) (retrieve : String → Option Customer)
    (listing : Listing)
    (eventsList : String → ℤ → ℤ → Option (List StripeEvent))
    (cachedData : Option CachedData) (now nowStore nowUpdated nowFlag : ℤ)
    (start_date end_date : Option String) :
    (∀ message,
        (fetchStripeData env retrieve listing cachedData now nowStore).result
          = .error message →
        (GET env retrieve listing eventsList cachedData now nowStore nowUpdated nowFlag
          start_date end_date).response.status = 500
        ∧ (GET env retrieve listing eventsList cachedData now nowStore nowUpdated nowFlag
          start_date end_date).response.body
          = .failure "Failed to fetch metrics data" "Failed to fetch subscription data")
      ∧ (∀ data,
        (fetchStripeData env retrieve listing cachedData now nowStore).result = .ok data →
        (GET env retrieve listing eventsList cachedData now nowStore nowUpdated nowFlag
          start_date end_date).response.status = 200
        ∧ ∃ d, (GET env retrieve listing eventsList cachedData now nowStore nowUpdated nowFlag
            start_date end_date).response.body = .success d
          ∧ d.metrics = calculateMetrics env data (fetchTrialConversionData data)
              (if truthy start_date then start_date else none)
              (if truthy end_date then end_date else none)
              (periodConversions env eventsList start_date end_date)
          ∧ d.productMetrics = calculateProductMetrics env data
              (fetchTrialConversionData data)
              (if truthy start_date then start_date else none)
              (if truthy end_date then end_date else none)
          ∧ d.trialConversions = fetchTrialConversionData data)
      ∧ (∀ startDate endDate : String,
          (env.dateParse startDate = none ∨ env.dateParse endDate = none
            ∨ ∃ startMs endMs, env.dateParse startDate = some startMs
                ∧ env.dateParse endDate = some endMs
                ∧ (eventsList "customer.subscription.updated" (startMs / 1000)
                      (endMs / 1000) = none
                  ∨ eventsList "customer.subscription.created" (startMs / 1000)
                      (endMs / 1000) = none)) →
          getSubscriptionConversions env eventsList startDate endDate = 0
          ∧ ((truthy (some startDate) && truthy (some endDate)) = true →
            periodConversions env eventsList (some startDate) (some endDate) = some 0))
      ∧ ((truthy start_date && truthy end_date) = false →
          periodConversions env eventsList start_date end_date = none) := by
  have hzero : ∀ startDate endDate : String,
      (env.dateParse startDate = none ∨ env.dateParse endDate = none
        ∨ ∃ startMs endMs, env.dateParse startDate = some startMs
            ∧ env.dateParse endDate = some endMs
            ∧ (eventsList "customer.subscription.updated" (startMs / 1000)
                  (endMs / 1000) = none
              ∨ eventsList "customer.subscription.created" (startMs / 1000)
                  (endMs / 1000) = none)) →
      getSubscriptionConversions env eventsList startDate endDate = 0 := by
    intro startDate endDate hfail
    rcases hfail with h | h | ⟨startMs, endMs, hs, he, h⟩
    · exact getSubscriptionConversions_unparsed env eventsList startDate endDate (Or.inl h)
    · exact getSubscriptionConversions_unparsed env eventsList startDate endDate (Or.inr h)
    · exact getSubscriptionConversions_of_failure env eventsList startDate endDate startMs
        endMs hs he h
  refine ⟨?_, ?_, ?_, ?_⟩
  · intro message herr
    have hm := fetchStripeData_error_message env retrieve listing cachedData now nowStore
      message herr
    subst hm
    simp only [GET, herr, and_self]
  · intro data hok
    simp only [GET, hok, true_and]
    exact ⟨_, rfl, rfl, rfl, rfl⟩
  · intro startDate endDate hfail
    refine ⟨hzero startDate endDate hfail, ?_⟩
    intro ht
    simp only [periodConversions, ht, if_true, hzero startDate endDate hfail]
  · intro hr
    cases start_date with
    | none => rfl
    | some s =>
      cases end_date with
      | none => rfl
      | some e => simp only [periodConversions, hr, Bool.false_eq_true, if_false]

/-- C24, for a listing of subscriptions that fails, with no snapshot held; and for the
search parameter `start_date=not-a-date`, where the count of the period is 0. -/
theorem GET_envelope_witness :
    ((GET utcExample lookupUpper { items := [rawClubA], fails := true } eventsFail none 0 0 0
        0 none none).response.status = 500
      ∧ (GET utcExample lookupUpper { items := [rawClubA], fails := true } eventsFail none 0
        0 0 0 none none).response.body
        = .failure "Failed to fetch metrics data" "Failed to fetch subscription data")
      ∧ periodConversions utcExample (eventsOfWindow [createdActiveEvent])
          (some "not-a-date") (some "2025-07-31") = some 0 :=
  ⟨(GET_envelope utcExample lookupUpper { items := [rawClubA], fails := true } eventsFail none
      0 0 0 0 none none).1 "Failed to fetch subscription data"
      (by simp [fetchStripeData, fetchFresh]),
    ((GET_envelope utcExample lookupUpper { items := [rawClubA], fails := true }
      (eventsOfWindow [createdActiveEvent]) none 0 0 0 0 none none).2.2.1
      "not-a-date" "2025-07-31" (Or.inl (by decide))).2 (by decide)⟩

/-- C29: when one request reads the clock once, every successful response of `GET` has
`cached = true`, whether the data was served from the cache or fetched from the provider
during the request; so no successful response has the flag false. -/
theorem GET_cached_flag (env : Builtins) (retrieve : String → Option Customer)
    (listing : Listing)
    (eventsList : String → ℤ → ℤ → Option (List StripeEvent))
    (cachedData : Option CachedData) (now nowUpdated : ℤ)
    (start_date end_date : Option String) (d : GetData)
    (hbody : (GET env retrieve listing eventsList cachedData now now nowUpdated now
      start_date end_date).response.body = .success d) :
    d.cached = true := by
  cases hres : (fetchStripeData env retrieve listing cachedData now now).result with
  | error message => simp [GET, hres] at hbody
  | ok data =>
    obtain ⟨held, hheld, hlt⟩ :=
      fetchStripeData_cached_after env retrieve listing cachedData now data hres
    simp only [GET, hres, hheld, GetBody.success.injEq] at hbody
    rw [← hbody]
    simp [hlt]

/-- C29, for a request that fetches from the provider with no snapshot held. -/
theorem GET_cached_flag_witness :
    ∃ d, (GET utcExample lookupUpper { items := [rawClubA], fails := false } eventsFail none 0
        0 0 0 none none).response.body = .success d
      ∧ d.cached = true := by
  have hres := fetchStripeData_stale_result utcExample lookupUpper [rawClubA] none 0 0
    (by simp)
  have hbody : ∃ d, (GET utcExample lookupUpper { items := [rawClubA], fails := false }
      eventsFail none 0 0 0 0 none none).response.body = .success d := by
    simp only [GET, hres]
    exact ⟨_, rfl⟩
  obtain ⟨d, hd⟩ := hbody
  exact ⟨d, hd, GET_cached_flag utcExample lookupUpper { items := [rawClubA], fails := false }
    eventsFail none 0 0 none none d hd⟩

theorem rate_le_hundred (productId : String) :
    orElse (realisticConversionRates.lookup productId) 40 ≤ 100 := by
  unfold orElse
  cases h : realisticConversionRates.lookup productId with
  | none => norm_num
  | some v =>
    by_cases hv : v = 0
    · simp only [hv, if_true]; norm_num
    · simp only [hv, if_false]
      simp only [realisticConversionRates, List.lookup] at h
      split at h
      · simp at h; rw [← h]; norm_num
      · split at h
        · simp at h; rw [← h]; norm_num
        · split at h
          · simp at h; rw [← h]; norm_num
          · simp at h

theorem le_mathRound_estimate (a : ℕ) (r : ℚ) (hpos : 0 < r) (hle : r ≤ 100) :
    (a : ℚ) ≤ mathRound (jsDiv (a : ℚ) (jsDiv r 100)) := by
  have hx : (a : ℚ) ≤ jsDiv (a : ℚ) (jsDiv r 100) := by
    unfold jsDiv
    have hd : 0 < r / 100 := div_pos hpos (by norm_num)
    rw [le_div_iff₀ hd]
    have ha : (0 : ℚ) ≤ (a : ℚ) := Nat.cast_nonneg a
    have h1 : r / 100 ≤ 1 := by
      rw [div_le_one (by norm_num)]; exact hle
    calc (a : ℚ) * (r / 100) ≤ (a : ℚ) * 1 := mul_le_mul_of_nonneg_left h1 ha
      _ = (a : ℚ) := mul_one _
  have hfloor : (a : ℤ) ≤ ⌊jsDiv (a : ℚ) (jsDiv r 100) + 1 / 2⌋ := by
    rw [Int.le_floor]
    push_cast
    linarith
  unfold mathRound
  have hcast : ((a : ℤ) : ℚ) ≤ ((⌊jsDiv (a : ℚ) (jsDiv r 100) + 1 / 2⌋ : ℤ) : ℚ) := by
    exact_mod_cast hfloor
  simpa using hcast

theorem trial_entry_bounds (data : List SubscriptionData) :
    ∀ t ∈ fetchTrialConversionData data, 0 ≤ t.conversions ∧ t.conversions ≤ t.total_trials := by
  intro t ht
  simp only [fetchTrialConversionData, fetchTrialConversionDataWith, List.mem_map] at ht
  obtain ⟨productId, _, rfl⟩ := ht
  refine ⟨Nat.cast_nonneg _, ?_⟩
  simp only
  split
  · exact le_mathRound_estimate _ _ (rate_pos productId) (rate_le_hundred productId)
  · rename_i h
    exact not_lt.mp h

/-- C28: for every snapshot, each entry of `fetchTrialConversionData` has
`conversions <= total_trials`, so the all-time `conversion_rate` that `calculateMetrics`
derives from it without a date range, the sum of the conversions over the sum of the
trials times 100, lies between 0 and 100; it is not confined to the interval from 38 to
45: for a snapshot of one active Millionaire Club record it is 50. -/
theorem estimated_rate_bounds (env : Builtins) (data : List SubscriptionData)
    (conversionsInPeriod : Option ℚ) :
    (∀ t ∈ fetchTrialConversionData data, t.conversions ≤ t.total_trials)
      ∧ (calculateMetrics env data (fetchTrialConversionData data) none none
          conversionsInPeriod).conversion_rate
        = (if 0 < ((fetchTrialConversionData data).map TrialConversionData.total_trials).sum
          then ((fetchTrialConversionData data).map TrialConversionData.conversions).sum
            / ((fetchTrialConversionData data).map TrialConversionData.total_trials).sum
            * 100
          else 0)
      ∧ 0 ≤ (calculateMetrics env data (fetchTrialConversionData data) none none
          conversionsInPeriod).conversion_rate
      ∧ (calculateMetrics env data (fetchTrialConversionData data) none none
          conversionsInPeriod).conversion_rate ≤ 100
      ∧ (calculateMetrics env [recordClubA] (fetchTrialConversionData [recordClubA]) none
          none conversionsInPeriod).conversion_rate = 50
      ∧ ¬ ((38 : ℚ) ≤ 50 ∧ (50 : ℚ) ≤ 45) := by
  have hb := trial_entry_bounds data
  have hrate : (calculateMetrics env data (fetchTrialConversionData data) none none
      conversionsInPeriod).conversion_rate
      = (if 0 < ((fetchTrialConversionData data).map TrialConversionData.total_trials).sum
        then ((fetchTrialConversionData data).map TrialConversionData.conversions).sum
          / ((fetchTrialConversionData data).map TrialConversionData.total_trials).sum
          * 100
        else 0) := by
    cases conversionsInPeriod <;>
      simp [calculateMetrics, calculateMetricsWith, truthy, historicalConversionRate,
        reduceSum_eq_sum, jsDiv]
  have hC : 0 ≤ ((fetchTrialConversionData data).map TrialConversionData.conversions).sum := by
    apply List.sum_nonneg
    intro x hx
    obtain ⟨t, ht, rfl⟩ := List.mem_map.mp hx
    exact (hb t ht).1
  have hCT : ((fetchTrialConversionData data).map TrialConversionData.conversions).sum
      ≤ ((fetchTrialConversionData data).map TrialConversionData.total_trials).sum :=
    List.sum_le_sum (fun t ht => (hb t ht).2)
  refine ⟨fun t ht => (hb t ht).2, hrate, ?_, ?_, ?_, by norm_num⟩
  · rw [hrate]
    split
    · rename_i hT
      exact mul_nonneg (div_nonneg hC (le_of_lt hT)) (by norm_num)
    · exact le_refl _
  · rw [hrate]
    split
    · rename_i hT
      have h1 : ((fetchTrialConversionData data).map TrialConversionData.conversions).sum
          / ((fetchTrialConversionData data).map TrialConversionData.total_trials).sum ≤ 1 := by
        rw [div_le_one hT]; exact hCT
      linarith
    · norm_num
  · have hround : mathRound (100 / 45) = 2 := by
      unfold mathRound
      have hfloor : ⌊(100 / 45 + 1 / 2 : ℚ)⌋ = 2 := by
        rw [Int.floor_eq_iff]; norm_num
      rw [hfloor]; norm_num
    have htrial : fetchTrialConversionData [recordClubA]
        = [⟨"prod_S9H5fDgFs9Lv7y", 1, 2, 45⟩, ⟨"prod_S8Y6cYg18JDFLG", 0, 0, 42⟩,
           ⟨"prod_RslgGi1t7MBOE6", 0, 0, 38⟩] := by
      simp [fetchTrialConversionData, fetchTrialConversionDataWith, productKeys,
        BUDGETDOG_PRODUCTS, recordClubA, realisticConversionRates, orElse, jsDiv, hround,
        List.lookup]
    rw [htrial]
    cases conversionsInPeriod <;>
    · simp [calculateMetrics, calculateMetricsWith, truthy, historicalConversionRate,
        reduceSum, jsDiv]
      norm_num

theorem sum_by_product (f : SubscriptionData → ℚ) (l : List SubscriptionData)
    (hmon : ∀ r ∈ l, r.product_id ∈ productKeys) :
    (l.map f).sum
      = ((l.filter (fun sub => sub.product_id == "prod_S9H5fDgFs9Lv7y")).map f).sum
        + ((l.filter (fun sub => sub.product_id == "prod_S8Y6cYg18JDFLG")).map f).sum
        + ((l.filter (fun sub => sub.product_id == "prod_RslgGi1t7MBOE6")).map f).sum := by
  induction l with
  | nil => simp
  | cons x xs ih =>
    have hx : x.product_id ∈ productKeys := hmon x (List.mem_cons_self _ _)
    have ih2 := ih (fun r hr => hmon r (List.mem_cons_of_mem _ hr))
    simp only [productKeys, BUDGETDOG_PRODUCTS, List.map_cons, List.map_nil, List.mem_cons,
      List.mem_singleton, List.not_mem_nil, or_false] at hx
    rcases hx with h | h | h <;>
    · simp only [List.map_cons, List.sum_cons, List.filter_cons, h]
      simp only [ih2]
      simp
      ring

theorem status_sum_by_product (f : SubscriptionData → ℚ) (status : String)
    (l : List SubscriptionData) (hmon : ∀ r ∈ l, r.product_id ∈ productKeys) :
    ((l.filter (fun sub => sub.status == status)).map f).sum
      = (((l.filter (fun sub => sub.product_id == "prod_S9H5fDgFs9Lv7y")).filter
            (fun sub => sub.status == status)).map f).sum
        + (((l.filter (fun sub => sub.product_id == "prod_S8Y6cYg18JDFLG")).filter
            (fun sub => sub.status == status)).map f).sum
        + (((l.filter (fun sub => sub.product_id == "prod_RslgGi1t7MBOE6")).filter
            (fun sub => sub.status == status)).map f).sum := by
  have h := sum_by_product f (l.filter (fun sub => sub.status == status))
    (fun r hr => hmon r (List.mem_filter.mp hr).1)
  have hcomm : ∀ productId : String,
      (l.filter (fun sub => sub.status == status)).filter
          (fun sub => sub.product_id == productId)
        = (l.filter (fun sub => sub.product_id == productId)).filter
          (fun sub => sub.status == status) := by
    intro productId
    rw [List.filter_filter, List.filter_filter]
    apply List.filter_congr
    intro sub _
    exact Bool.and_comm _ _
  rw [h, hcomm, hcomm, hcomm]

theorem length_eq_sum_ones {α : Type} (l : List α) :
    (l.length : ℚ) = (l.map (fun _ => (1 : ℚ))).sum := by
  induction l with
  | nil => simp
  | cons x xs ih => simp only [List.length_cons, List.map_cons, List.sum_cons, ← ih]; push_cast; ring

/-- The sum of a field over the result of `calculateProductMetrics`, for a field that is
0 on the entry of a product without records. -/
theorem productMetrics_sum (dv : ℚ → ℚ → ℚ) (fd : List SubscriptionData)
    (trialData : List TrialConversionData) (g : ProductEntry → ℚ)
    (hg : ∀ productId, g (productEntry dv [] trialData productId) = 0) :
    ((BUDGETDOG_PRODUCTS.foldl (productStep dv fd trialData) []).map (fun e => g e.2)).sum
      = g (productEntry dv (fd.filter (fun sub => sub.product_id == "prod_S9H5fDgFs9Lv7y"))
          trialData "prod_S9H5fDgFs9Lv7y")
        + g (productEntry dv (fd.filter (fun sub => sub.product_id == "prod_S8Y6cYg18JDFLG"))
          trialData "prod_S8Y6cYg18JDFLG")
        + g (productEntry dv (fd.filter (fun sub => sub.product_id == "prod_RslgGi1t7MBOE6"))
          trialData "prod_RslgGi1t7MBOE6") := by
  simp only [BUDGETDOG_PRODUCTS, List.foldl_cons, List.foldl_nil, productStep]
  generalize fd.filter (fun sub => sub.product_id == "prod_S9H5fDgFs9Lv7y") = l1
  generalize fd.filter (fun sub => sub.product_id == "prod_S8Y6cYg18JDFLG") = l2
  generalize fd.filter (fun sub => sub.product_id == "prod_RslgGi1t7MBOE6") = l3
  rcases l1 with _ | ⟨x1, t1⟩ <;> rcases l2 with _ | ⟨x2, t2⟩ <;>
    rcases l3 with _ | ⟨x3, t3⟩ <;>
    simp [hg, mapSet, mapHas, add_assoc]

/-- C27: for every snapshot whose records all carry a monitored `product_id`, without a
date range, the rollups of `calculateProductMetrics` add up to those of
`calculateMetrics`: the `mrr` fields to `total_mrr`, and the `active`, `trialing` and
`cancelled` counts to the fields of the same name. -/
theorem product_rollups_add_up (env : Builtins) (data : List SubscriptionData)
    (trialData : List TrialConversionData) (conversionsInPeriod : Option ℚ)
    (hmon : ∀ r ∈ data, r.product_id ∈ productKeys) :
    ((calculateProductMetrics env data trialData none none).map (fun e => e.2.mrr)).sum
        = (calculateMetrics env data trialData none none conversionsInPeriod).total_mrr
      ∧ ((calculateProductMetrics env data trialData none none).map
          (fun e => e.2.active)).sum
        = (calculateMetrics env data trialData none none conversionsInPeriod).active
      ∧ ((calculateProductMetrics env data trialData none none).map
          (fun e => e.2.trialing)).sum
        = (calculateMetrics env data trialData none none conversionsInPeriod).trialing
      ∧ ((calculateProductMetrics env data trialData none none).map
          (fun e => e.2.cancelled)).sum
        = (calculateMetrics env data trialData none none conversionsInPeriod).cancelled := by
  have hfd : filterByDateProduct env data none none = data := rfl
  have hfm : filterByDate env data none none = data := rfl
  refine ⟨?_, ?_, ?_, ?_⟩
  · simp only [calculateProductMetrics, calculateProductMetricsWith, hfd]
    rw [productMetrics_sum jsDiv data trialData (fun e => e.mrr)
      (by intro productId; simp [productEntry, reduceSum])]
    simp only [calculateMetrics, calculateMetricsWith, productEntry, reduceSum_eq_sum]
    rw [status_sum_by_product SubscriptionData.amount "active" data hmon]
  · simp only [calculateProductMetrics, calculateProductMetricsWith, hfd]
    rw [productMetrics_sum jsDiv data trialData (fun e => e.active)
      (by intro productId; simp [productEntry])]
    simp only [calculateMetrics, calculateMetricsWith, productEntry, truthy,
      Bool.false_and, Bool.false_eq_true, if_false, length_eq_sum_ones]
    rw [status_sum_by_product (fun _ => 1) "active" data hmon]
  · simp only [calculateProductMetrics, calculateProductMetricsWith, hfd]
    rw [productMetrics_sum jsDiv data trialData (fun e => e.trialing)
      (by intro productId; simp [productEntry])]
    simp only [calculateMetrics, calculateMetricsWith, productEntry, hfm, length_eq_sum_ones]
    rw [status_sum_by_product (fun _ => 1) "trialing" data hmon]
  · simp only [calculateProductMetrics, calculateProductMetricsWith, hfd]
    rw [productMetrics_sum jsDiv data trialData (fun e => e.cancelled)
      (by intro productId; simp [productEntry])]
    simp only [calculateMetrics, calculateMetricsWith, productEntry, hfm, length_eq_sum_ones]
    rw [status_sum_by_product (fun _ => 1) "canceled" data hmon]

/-- C27, on the three active records of the Millionaire Club. -/
theorem product_rollups_add_up_witness :
    ((calculateProductMetrics utcExample threeActive [] none none).map
        (fun e => e.2.mrr)).sum
      = (calculateMetrics utcExample threeActive [] none none none).total_mrr :=
  (product_rollups_add_up utcExample threeActive [] none (by decide)).1

theorem setToArray_foldl (l seen : List String) (hnd : seen.Nodup) :
    (l.foldl (fun seen x => if seen.contains x then seen else seen ++ [x]) seen).Nodup
      ∧ ∀ x, x ∈ l.foldl (fun seen x => if seen.contains x then seen else seen ++ [x]) seen
          ↔ x ∈ seen ∨ x ∈ l := by
  induction l generalizing seen with
  | nil => simp [hnd]
  | cons y ys ih =>
    rw [List.foldl_cons]
    by_cases hy : y ∈ seen
    · have hc : seen.contains y = true := by simpa using hy
      simp only [hc, if_true]
      obtain ⟨h1, h2⟩ := ih seen hnd
      refine ⟨h1, ?_⟩
      intro x
      rw [h2 x]
      constructor
      · rintro (h | h)
        · exact Or.inl h
        · exact Or.inr (List.mem_cons_of_mem _ h)
      · rintro (h | h)
        · exact Or.inl h
        · rcases List.mem_cons.mp h with rfl | h'
          · exact Or.inl hy
          · exact Or.inr h'
    · have hc : seen.contains y = false := by simpa using hy
      simp only [hc, Bool.false_eq_true, if_false]
      have hnd2 : (seen ++ [y]).Nodup := by
        rw [List.nodup_append]
        refine ⟨hnd, by simp, ?_⟩
        intro a ha hb
        simp only [List.mem_singleton] at hb
        exact hy (hb ▸ ha)
      obtain ⟨h1, h2⟩ := ih (seen ++ [y]) hnd2
      refine ⟨h1, ?_⟩
      intro x
      rw [h2 x]
      simp only [List.mem_append, List.mem_singleton, List.mem_cons]
      tauto

theorem nodup_setToArray (l : List String) : (setToArray l).Nodup :=
  (setToArray_foldl l [] List.nodup_nil).1

theorem mem_setToArray (l : List String) (x : String) : x ∈ setToArray l ↔ x ∈ l := by
  have h := (setToArray_foldl l [] List.nodup_nil).2 x
  simpa [setToArray] using h

theorem length_setToArray (l : List String) : (setToArray l).length = l.toFinset.card := by
  rw [← List.toFinset_card_of_nodup (nodup_setToArray l)]
  congr 1
  ext x
  simp [mem_setToArray]

theorem filter_partition_length {α : Type} (p : α → Bool) (l : List α) :
    (l.filter p).length + (l.filter (fun x => !p x)).length = l.length := by
  induction l with
  | nil => rfl
  | cons x xs ih =>
    by_cases h : p x = true
    · simp [List.filter_cons, h]; omega
    · simp [List.filter_cons, h]; omega

theorem inter_length_comm (a b : List String) (ha : a.Nodup) (hb : b.Nodup) :
    (b.filter (fun x => a.contains x)).length = (a.filter (fun x => b.contains x)).length := by
  rw [← List.toFinset_card_of_nodup (hb.filter _), ← List.toFinset_card_of_nodup (ha.filter _)]
  congr 1
  ext x
  have hc : ∀ (l : List String) (y : String), l.contains y = true ↔ y ∈ l := by
    intro l y; simp
  simp only [List.mem_toFinset, List.mem_filter, hc]
  tauto

/-- C25: for any two email lists `A` (trial users) and `B` (signups), with `sort` a
permutation, the result of `calculateTakeRate` has `overlapEmails` the lower-cased
emails that are in both lists, `academyOnly` those of `B` not in `A` and `averyOnly`
those of `A` not in `B`; the overlap and `academyOnly` add up to the number of distinct
emails of `B`, the overlap and `averyOnly` to that of `A`; the three lists are free of
duplicates and pairwise disjoint; and when `A` is not empty `takeRate` is the overlap
over the number of distinct emails of `A`, times 100, between 0 and 100. -/
theorem calculateTakeRate_sets (toLowerCase : String → String)
    (sort : List String → List String) (A B : List String)
    (hsort : ∀ l, (sort l).Perm l) :
    (calculateTakeRate toLowerCase sort A B).averyUsers = (A.map toLowerCase).toFinset.card
      ∧ (calculateTakeRate toLowerCase sort A B).academySignups
        = (B.map toLowerCase).toFinset.card
      ∧ (∀ x, x ∈ (calculateTakeRate toLowerCase sort A B).overlapEmails
          ↔ x ∈ A.map toLowerCase ∧ x ∈ B.map toLowerCase)
      ∧ (∀ x, x ∈ (calculateTakeRate toLowerCase sort A B).academyOnly
          ↔ x ∈ B.map toLowerCase ∧ x ∉ A.map toLowerCase)
      ∧ (∀ x, x ∈ (calculateTakeRate toLowerCase sort A B).averyOnly
          ↔ x ∈ A.map toLowerCase ∧ x ∉ B.map toLowerCase)
      ∧ (calculateTakeRate toLowerCase sort A B).overlap
        = (calculateTakeRate toLowerCase sort A B).overlapEmails.length
      ∧ (calculateTakeRate toLowerCase sort A B).overlap
          + (calculateTakeRate toLowerCase sort A B).academyOnly.length
        = (calculateTakeRate toLowerCase sort A B).academySignups
      ∧ (calculateTakeRate toLowerCase sort A B).overlap
          + (calculateTakeRate toLowerCase sort A B).averyOnly.length
        = (calculateTakeRate toLowerCase sort A B).averyUsers
      ∧ (calculateTakeRate toLowerCase sort A B).overlapEmails.Nodup
      ∧ (calculateTakeRate toLowerCase sort A B).academyOnly.Nodup
      ∧ (calculateTakeRate toLowerCase sort A B).averyOnly.Nodup
      ∧ (calculateTakeRate toLowerCase sort A B).overlapEmails.Disjoint
          (calculateTakeRate toLowerCase sort A B).academyOnly
      ∧ (calculateTakeRate toLowerCase sort A B).overlapEmails.Disjoint
          (calculateTakeRate toLowerCase sort A B).averyOnly
      ∧ (calculateTakeRate toLowerCase sort A B).academyOnly.Disjoint
          (calculateTakeRate toLowerCase sort A B).averyOnly
      ∧ (A ≠ [] → ∃ t, (calculateTakeRate toLowerCase sort A B).takeRate = some t
          ∧ t = ((calculateTakeRate toLowerCase sort A B).overlap : ℚ)
              / ((calculateTakeRate toLowerCase sort A B).averyUsers : ℚ) * 100
          ∧ 0 ≤ t ∧ t ≤ 100) := by
  have hc : ∀ (l : List String) (y : String), l.contains y = true ↔ y ∈ l := by
    intro l y; simp
  have hndA := nodup_setToArray (A.map toLowerCase)
  have hndB := nodup_setToArray (B.map toLowerCase)
  have hmA := mem_setToArray (A.map toLowerCase)
  have hmB := mem_setToArray (B.map toLowerCase)
  have hov : ∀ x, x ∈ sort ((setToArray (B.map toLowerCase)).filter
      (fun email => (setToArray (A.map toLowerCase)).contains email))
      ↔ x ∈ A.map toLowerCase ∧ x ∈ B.map toLowerCase := by
    intro x
    rw [(hsort _).mem_iff, List.mem_filter, hc, hmA, hmB]
    tauto
  have hac : ∀ x, x ∈ sort ((setToArray (B.map toLowerCase)).filter
      (fun email => !(setToArray (A.map toLowerCase)).contains email))
      ↔ x ∈ B.map toLowerCase ∧ x ∉ A.map toLowerCase := by
    intro x
    rw [(hsort _).mem_iff, List.mem_filter, hmB]
    simp only [Bool.not_eq_true', ← Bool.not_eq_true, hc, hmA]
  have hav : ∀ x, x ∈ sort ((setToArray (A.map toLowerCase)).filter
      (fun email => !(setToArray (B.map toLowerCase)).contains email))
      ↔ x ∈ A.map toLowerCase ∧ x ∉ B.map toLowerCase := by
    intro x
    rw [(hsort _).mem_iff, List.mem_filter, hmA]
    simp only [Bool.not_eq_true', ← Bool.not_eq_true, hc, hmB]
  have hlenB := filter_partition_length
    (fun email => (setToArray (A.map toLowerCase)).contains email)
    (setToArray (B.map toLowerCase))
  have hlenA := filter_partition_length
    (fun email => (setToArray (B.map toLowerCase)).contains email)
    (setToArray (A.map toLowerCase))
  have hcomm := inter_length_comm (setToArray (A.map toLowerCase))
    (setToArray (B.map toLowerCase)) hndA hndB
  have hle : ((setToArray (B.map toLowerCase)).filter
      (fun email => (setToArray (A.map toLowerCase)).contains email)).length
      ≤ (setToArray (A.map toLowerCase)).length := by
    rw [hcomm]; exact List.length_filter_le _ _
  refine ⟨length_setToArray _, length_setToArray _, hov, hac, hav, rfl, ?_, ?_, ?_, ?_, ?_,
    ?_, ?_, ?_, ?_⟩
  · simp only [calculateTakeRate, (hsort _).length_eq]
    exact hlenB
  · simp only [calculateTakeRate, (hsort _).length_eq]
    rw [hcomm]; exact hlenA
  · exact ((hsort _).nodup_iff).mpr (hndB.filter _)
  · exact ((hsort _).nodup_iff).mpr (hndB.filter _)
  · exact ((hsort _).nodup_iff).mpr (hndA.filter _)
  · intro x h1 h2
    exact ((hac x).mp h2).2 ((hov x).mp h1).1
  · intro x h1 h2
    exact ((hav x).mp h2).2 ((hov x).mp h1).2
  · intro x h1 h2
    exact ((hac x).mp h1).2 ((hav x).mp h2).1
  · intro hA
    have hpos : 0 < (setToArray (A.map toLowerCase)).length := by
      rw [length_setToArray]
      apply Finset.card_pos.mpr
      cases A with
      | nil => exact absurd rfl hA
      | cons a as => exact ⟨toLowerCase a, by simp⟩
    have hne : ¬ (setToArray (A.map toLowerCase)).length = 0 := Nat.pos_iff_ne_zero.mp hpos
    have hposq : (0 : ℚ) < ((setToArray (A.map toLowerCase)).length : ℚ) := by
      exact_mod_cast hpos
    have hleq : (((setToArray (B.map toLowerCase)).filter
        (fun email => (setToArray (A.map toLowerCase)).contains email)).length : ℚ)
        ≤ ((setToArray (A.map toLowerCase)).length : ℚ) := by exact_mod_cast hle
    refine ⟨(((setToArray (B.map toLowerCase)).filter
        (fun email => (setToArray (A.map toLowerCase)).contains email)).length : ℚ)
        / ((setToArray (A.map toLowerCase)).length : ℚ) * 100, ?_, ?_, ?_, ?_⟩
    · simp only [calculateTakeRate, hne, if_false]
    · simp only [calculateTakeRate, (hsort _).length_eq]
    · exact mul_nonneg (div_nonneg (Nat.cast_nonneg _) (le_of_lt hposq)) (by norm_num)
    · have h1 : (((setToArray (B.map toLowerCase)).filter
          (fun email => (setToArray (A.map toLowerCase)).contains email)).length : ℚ)
          / ((setToArray (A.map toLowerCase)).length : ℚ) ≤ 1 := by
        rw [div_le_one hposq]; exact hleq
      linarith

/-- C25, for the trial users `A, b, c` and the signups `B, c, d, b`: 2 emails in both
lists and 1 signup only make the 3 distinct signups. -/
theorem calculateTakeRate_sets_witness :
    (calculateTakeRate asciiLower sortStrings ["A", "b", "c"] ["B", "c", "d", "b"]).overlap
        + (calculateTakeRate asciiLower sortStrings ["A", "b", "c"]
          ["B", "c", "d", "b"]).academyOnly.length
      = (calculateTakeRate asciiLower sortStrings ["A", "b", "c"]
          ["B", "c", "d", "b"]).academySignups :=
  (calculateTakeRate_sets asciiLower sortStrings ["A", "b", "c"] ["B", "c", "d", "b"]
    (fun l => List.perm_insertionSort _ l)).2.2.2.2.2.2.1

/-- C26 (as stated, refuted): for `A = [a, b, c]` and `B = [b, c, d]` the take rate
against `B` is `2 / 3 × 100`, not 50, in `correct-take-rate.js` (which divides by the
list that it filters) and in `calculate-august-take-rate.js` (with `B` as the list that
it divides by). -/
theorem take_rate_example_is_not_fifty :
    (correctTakeRate ["b", "c", "d"] ["a", "b", "c"]).2 = some (2 / 3 * 100)
      ∧ (calculateTakeRate asciiLower sortStrings ["b", "c", "d"] ["a", "b", "c"]).takeRate
        = some (2 / 3 * 100)
      ∧ (2 / 3 * 100 : ℚ) ≠ 50 := by
  refine ⟨?_, ?_, by norm_num⟩
  · simp [correctTakeRate]
  · simp [calculateTakeRate, setToArray, asciiLower]

/-- C26 (amended): for `A = [a, b, c]` and `B = [b, c, d]` the reconciliation computes the
intersection `[b, c]` and a take rate against `B` of `2 / 3 × 100`, which is 66.7 to one
decimal. -/
theorem take_rate_example :
    (correctTakeRate ["b", "c", "d"] ["a", "b", "c"]).1 = ["b", "c"]
      ∧ (correctTakeRate ["b", "c", "d"] ["a", "b", "c"]).2 = some (2 / 3 * 100)
      ∧ (calculateTakeRate asciiLower sortStrings ["b", "c", "d"]
          ["a", "b", "c"]).overlapEmails = ["b", "c"]
      ∧ (calculateTakeRate asciiLower sortStrings ["b", "c", "d"] ["a", "b", "c"]).takeRate
        = some (2 / 3 * 100)
      ∧ (66.65 : ℚ) ≤ 2 / 3 * 100 ∧ (2 / 3 * 100 : ℚ) < 66.75 := by
  refine ⟨by decide, ?_, by decide, ?_, by norm_num, by norm_num⟩
  · simp [correctTakeRate]
  · simp [calculateTakeRate, setToArray, asciiLower]

end Budgetdog
